import Mathlib

/-!
Shallow embedding of the threat aggregation and criticality scoring engine of
the strider repository (`services/threat_model_compiler.py` and
`services/agents/agent.py`), together with theorems checking the
specification's claims against it.

Modelling conventions:
* Python numbers (int and float) are modelled as rationals (`ℚ`); the
  arithmetic the engine performs (add, multiply, divide, min, max, round) is
  exact on the decimal values involved.  Non-finite floats (inf/nan) are
  outside the rational model.
* Python strings are Lean `String`s, with the character-level operations
  re-implemented over `String.data` so that they compute inside proofs.
* Python exceptions are modelled with `Except PyErr`; a `try/except Exception`
  block in the source corresponds to matching on the `Except` result.
* Python dicts are association lists preserving insertion order, as Python
  dicts do.
-/

namespace Strider

/-- A Python value as it occurs in the threat-model records: strings, numbers
(int or float, modelled as `ℚ`), lists, string-keyed dictionaries, and
`None`.  All dictionaries the engine manipulates are keyed by strings. -/
inductive PyVal where
  | str (s : String)
  | num (q : ℚ)
  | vlist (xs : List PyVal)
  | vdict (kvs : List (String × PyVal))
  | pynone

/-- The Python exception classes the modelled code can raise.  Every one of
them is a subclass of `Exception`, so an `except Exception` handler catches
all of them. -/
inductive PyErr where
  | typeError
  | valueError
  | attributeError
  | zeroDivisionError
deriving DecidableEq

/-- `d.get(k, dflt)` on a Python dict modelled as an association list. -/
def dictGet (kvs : List (String × PyVal)) (k : String) (dflt : PyVal) : PyVal :=
  match kvs.find? (fun kv => kv.fst == k) with
  | some kv => kv.snd
  | Option.none => dflt

/-- `d[k] = v` on a Python dict: replaces in place if the key exists
(keeping its position), appends otherwise. -/
def dictSet (kvs : List (String × PyVal)) (k : String) (v : PyVal) :
    List (String × PyVal) :=
  match kvs with
  | [] => [(k, v)]
  | (k', v') :: rest => if k' == k then (k, v) :: rest else (k', v') :: dictSet rest k v

/-- `k in d` on a Python dict. -/
def hasKey (kvs : List (String × PyVal)) (k : String) : Bool :=
  (kvs.find? (fun kv => kv.fst == k)).isSome

/-- Python truthiness: empty containers, empty strings, zero and `None` are
falsy. -/
def pyTruthy : PyVal → Bool
  | .str s => !s.data.isEmpty
  | .num q => q != 0
  | .vlist xs => !xs.isEmpty
  | .vdict kvs => !kvs.isEmpty
  | .pynone => false

/-- Python `==` on the modelled values.  Values of different types compare
unequal; lists compare elementwise.  (Dict comparison is modelled
order-sensitively; the engine only ever compares strings and numbers.) -/
def pyEq : PyVal → PyVal → Bool
  | .str a, .str b => a == b
  | .num a, .num b => a == b
  | .vlist a, .vlist b => eqList a b
  | .vdict a, .vdict b => eqDict a b
  | .pynone, .pynone => true
  | _, _ => false
where
  eqList : List PyVal → List PyVal → Bool
    | [], [] => true
    | x :: xs, y :: ys => pyEq x y && eqList xs ys
    | _, _ => false
  eqDict : List (String × PyVal) → List (String × PyVal) → Bool
    | [], [] => true
    | (k1, v1) :: xs, (k2, v2) :: ys => k1 == k2 && pyEq v1 v2 && eqDict xs ys
    | _, _ => false

/-- Whether a value is hashable in Python (usable as a dict key or set
element): lists and dicts are not. -/
def pyHashable : PyVal → Bool
  | .vlist _ => false
  | .vdict _ => false
  | _ => true

/-- Python iteration: lists yield their elements, strings yield their
characters, dicts yield their keys; numbers and `None` raise `TypeError`. -/
def pyIter : PyVal → Except PyErr (List PyVal)
  | .vlist xs => .ok xs
  | .str s => .ok (s.data.map (fun c => .str (String.mk [c])))
  | .vdict kvs => .ok (kvs.map (fun kv => .str kv.fst))
  | _ => .error .typeError

/-- Accessing the `.get` method of a value: only dicts have it
(`AttributeError` otherwise). -/
def asDict : PyVal → Except PyErr (List (String × PyVal))
  | .vdict kvs => .ok kvs
  | _ => .error .attributeError

/-- Accessing a string method such as `.lower()` on a value
(`AttributeError` on non-strings). -/
def asStr : PyVal → Except PyErr String
  | .str s => .ok s
  | _ => .error .attributeError

/-- ASCII model of `str.lower()`. -/
def lowerStr (s : String) : String := String.mk (s.data.map Char.toLower)

/-- `needle in hay` (substring containment) over character lists. -/
def containsSub (hay needle : List Char) : Bool :=
  match hay with
  | [] => needle.isEmpty
  | _ :: rest => needle.isPrefixOf hay || containsSub rest needle

/-- Python `sub in s` for strings. -/
def strContains (s sub : String) : Bool := containsSub s.data sub.data

/-- Python `s.split(sep)` with a single-character separator: keeps empty
pieces, `"".split(sep) == [""]`. -/
def splitOnChar (s : String) (sep : Char) : List String :=
  (s.data.splitOnP (fun c => c == sep)).map String.mk

/-- Python `str.strip()` (ASCII whitespace model). -/
def stripStr (s : String) : String :=
  String.mk (((s.data.dropWhile Char.isWhitespace).reverse.dropWhile
      Char.isWhitespace).reverse)

/-- A regex `\w` word character (ASCII model): letters, digits, underscore. -/
def isWordChar (c : Char) : Bool := c.isAlphanum || c == '_'

/-- `re.findall(r'\w+', s)`: the maximal runs of word characters of `s`. -/
def findWords (s : String) : List String :=
  ((s.data.splitOnP (fun c => !isWordChar c)).filter (fun w => !w.isEmpty)).map
    String.mk

/-- Code-point lexicographic order on character lists: the order Python's
`sorted` uses for strings. -/
def lexLeChars : List Char → List Char → Bool
  | [], _ => true
  | _ :: _, [] => false
  | a :: as, b :: bs => if a == b then lexLeChars as bs else decide (a.toNat ≤ b.toNat)

/-- Lexicographic order on strings. -/
def lexLe (a b : String) : Bool := lexLeChars a.data b.data

/-- Stable insertion of `x` after every already-placed element `y` with
`le y x`. -/
def stableInsert (le : α → α → Bool) (x : α) : List α → List α
  | [] => [x]
  | y :: ys => if le y x then y :: stableInsert le x ys else x :: y :: ys

/-- Stable sort with respect to `le` (`le y x` means `y` may stay before `x`):
the same output as Python's stable `sorted`. -/
def stableSort (le : α → α → Bool) (xs : List α) : List α :=
  xs.foldl (fun acc x => stableInsert le x acc) []

/-- Value of a list of decimal digit characters. -/
def digitsToNat (ds : List Char) : ℕ :=
  ds.foldl (fun a c => a * 10 + (c.toNat - '0'.toNat)) 0

/-- Underscore placement check for Python numeric literals: every `_` must sit
between two digits. -/
def underscoresOk (cs : List Char) : Bool := go Option.none cs
where
  go : Option Char → List Char → Bool
    | _, [] => true
    | prev, c :: rest =>
      if c == '_' then
        (match prev with | some p => p.isDigit | Option.none => false)
          && (match rest with | d :: _ => d.isDigit | [] => false)
          && go (some c) rest
      else go (some c) rest

/-- `m * 10 ^ e` for a signed exponent. -/
def applyExp (m : ℚ) (e : ℤ) : ℚ :=
  if 0 ≤ e then m * (10 : ℚ) ^ e.toNat else m / (10 : ℚ) ^ (-e).toNat

/-- Parse the exponent suffix of a float literal (empty input means
exponent 0). -/
def parseExp : List Char → Option ℤ
  | [] => some 0
  | c :: rest =>
    if c == 'e' || c == 'E' then
      match rest with
      | '+' :: ds =>
        if !ds.isEmpty && ds.all Char.isDigit then some (digitsToNat ds) else Option.none
      | '-' :: ds =>
        if !ds.isEmpty && ds.all Char.isDigit then some (-(digitsToNat ds : ℤ))
        else Option.none
      | ds =>
        if !ds.isEmpty && ds.all Char.isDigit then some (digitsToNat ds) else Option.none
    else Option.none

/-- Parse an unsigned float literal: digits with optional fractional part and
optional exponent; at least one digit must be present. -/
def parseUnsignedFloat (cs : List Char) : Option ℚ :=
  let ip := cs.takeWhile Char.isDigit
  let rest := cs.dropWhile Char.isDigit
  match rest with
  | '.' :: rest2 =>
    let fp := rest2.takeWhile Char.isDigit
    let rest3 := rest2.dropWhile Char.isDigit
    if ip.isEmpty && fp.isEmpty then Option.none
    else
      match parseExp rest3 with
      | some e =>
        some (applyExp ((digitsToNat ip : ℚ) + (digitsToNat fp : ℚ) / (10 : ℚ) ^ fp.length) e)
      | Option.none => Option.none
  | _ =>
    if ip.isEmpty then Option.none
    else
      match parseExp rest with
      | some e => some (applyExp (digitsToNat ip : ℚ) e)
      | Option.none => Option.none

/-- Model of Python `float(s)` on finite decimal literals: optional
surrounding whitespace, optional sign, digits with optional fractional part
and exponent, single underscores permitted between digits.  `inf` and `nan`
literals are outside the rational model and rejected here. -/
def parsePyFloat (s : String) : Option ℚ :=
  let cs := ((s.data.dropWhile Char.isWhitespace).reverse.dropWhile
      Char.isWhitespace).reverse
  if !underscoresOk cs then Option.none
  else
    let cs := cs.filter (fun c => c != '_')
    match cs with
    | '+' :: rest => parseUnsignedFloat rest
    | '-' :: rest => (parseUnsignedFloat rest).map (fun q => -q)
    | _ => parseUnsignedFloat cs

/-- Model of Python `float(x)`: numbers coerce to themselves, strings are
parsed (`ValueError` on failure), other types raise `TypeError`. -/
def pyFloat : PyVal → Except PyErr ℚ
  | .num q => .ok q
  | .str s =>
    match parsePyFloat s with
    | some q => .ok q
    | Option.none => .error .valueError
  | _ => .error .typeError

/-- Round half to even to an integer, as Python's `round`. -/
def roundHalfEven (q : ℚ) : ℤ :=
  let f : ℤ := ⌊q⌋
  let r : ℚ := q - f
  if r < 1 / 2 then f
  else if 1 / 2 < r then f + 1
  else if f % 2 = 0 then f else f + 1

/-- Python `round(x, 2)` on the rational model. -/
def round2 (q : ℚ) : ℚ := (roundHalfEven (q * 100) : ℚ) / 100

/-- Python `f"{x:.1f}"` on the rational model. -/
def formatFixed1 (q : ℚ) : String :=
  let n := roundHalfEven (q * 10)
  let sign := if n < 0 then "-" else ""
  let m := n.natAbs
  sign ++ toString (m / 10) ++ "." ++ toString (m % 10)

/-- Decimal expansion search: the number of fractional digits and the scaled
integer value of `q`, when `q` has a finite decimal expansion of at most the
given (fuel) length. -/
def decimalDigits : ℕ → ℚ → Option (ℤ × ℕ)
  | 0, q => if q.den = 1 then some (q.num, 0) else Option.none
  | k + 1, q =>
    if q.den = 1 then some (q.num, 0)
    else (decimalDigits k (q * 10)).map (fun p => (p.1, p.2 + 1))

/-- Rendering of a Python float: integral values as `"n.0"`, finite decimals
in full; (the engine's scores are all finite decimals). -/
def ratRepr (q : ℚ) : String :=
  match decimalDigits 40 q with
  | some (n, 0) => toString n ++ ".0"
  | some (n, d) =>
    let sign := if n < 0 then "-" else ""
    let m := n.natAbs
    let base := (10 : ℕ) ^ d
    sign ++ toString (m / base) ++ "." ++
      String.mk ((toString (m % base + base)).data.drop 1)
  | Option.none => toString q.num ++ " div " ++ toString q.den

/-- Best-effort model of Python `str()` as used inside the engine's f-strings;
the records this development reasons about only interpolate strings and
floats. -/
def pyRender : PyVal → String
  | .str s => s
  | .num q => ratRepr q
  | .vlist _ => "<list>"
  | .vdict _ => "<dict>"
  | .pynone => "None"

/-! ### services/threat_model_compiler.py -/

/-- The `CriticalityLevel` enum. -/
inductive CriticalityLevel where
  | LOW
  | MEDIUM
  | HIGH
  | CRITICAL

/-- `.name` of a `CriticalityLevel` member. -/
def CriticalityLevel.name : CriticalityLevel → String
  | .LOW => "LOW"
  | .MEDIUM => "MEDIUM"
  | .HIGH => "HIGH"
  | .CRITICAL => "CRITICAL"

/-- The `ComponentThreat` dataclass.  The fields that are copied straight out
of raw records via `.get` carry arbitrary Python values (the dataclass type
annotations are not enforced at runtime). -/
structure ComponentThreat where
  threat_id : String
  threat_type : PyVal
  component_name : PyVal
  component_type : PyVal
  scenario : PyVal
  attack_vectors : PyVal
  affected_components : PyVal
  impact : PyVal
  base_score : ℚ
  criticality_score : ℚ
  mitigations : List String

/-- `ThreatModelCompiler.component_weights` as set in `__init__`. -/
def component_weights : List (String × ℚ) :=
  [("authentication_service", 1.5), ("api_gateway", 1.4), ("database", 1.3),
   ("backend", 1.2), ("frontend", 1), ("cache", 0.9), ("static_content", 0.8)]

/-- `f"THREAT-{n:03d}"`. -/
def threatId (n : ℕ) : String :=
  let s := toString n
  "THREAT-" ++
    (if s.data.length < 3 then String.mk (List.replicate (3 - s.data.length) '0') ++ s
     else s)

/-- One record of `_extract_component_threats`' inner loop: every field is a
plain `.get` with a default, except `base_score` which goes through
`float(...)` and can raise. -/
def extractOneThreat (counter : ℕ) (tv : PyVal) : Except PyErr ComponentThreat := do
  let t ← asDict tv
  let bs ← pyFloat (dictGet t "risk_score" (.num 5))
  pure {
    threat_id := threatId counter
    threat_type := dictGet t "Threat Type" (.str "Unknown")
    component_name := dictGet t "component_name" (.str "System")
    component_type := dictGet t "component_type" (.str "Unknown")
    scenario := dictGet t "Scenario" (.str "")
    attack_vectors := dictGet t "attack_vectors" (.vlist [])
    affected_components := dictGet t "affected_components" (.vlist [])
    impact := dictGet t "Potential Impact" (.str "")
    base_score := bs
    criticality_score := 0
    mitigations := [] }

/-- The `for threat in analysis.get("threats", [])` loop, threading the
`threat_counter`. -/
def extractThreatList (tvs : List PyVal) (counter : ℕ) :
    Except PyErr (List ComponentThreat × ℕ) :=
  match tvs with
  | [] => .ok ([], counter)
  | tv :: rest => do
    let t ← extractOneThreat counter tv
    let (ts, c) ← extractThreatList rest (counter + 1)
    pure (t :: ts, c)

/-- The batch loop of `_extract_component_threats`: a falsy analysis or the
agent name `"ThreatModelCompiler"` is skipped via `continue`. -/
def extractLoop (batches : List (String × PyVal)) (counter : ℕ) :
    Except PyErr (List ComponentThreat) :=
  match batches with
  | [] => .ok []
  | (agent_name, analysis) :: rest =>
    if !pyTruthy analysis || agent_name == "ThreatModelCompiler" then
      extractLoop rest counter
    else do
      let a ← asDict analysis
      let tvs ← pyIter (dictGet a "threats" (.vlist []))
      let (ts, c) ← extractThreatList tvs counter
      let more ← extractLoop rest c
      pure (ts ++ more)

/-- `_extract_component_threats`: its `try/except Exception` handler returns
`[]` on any exception from the whole loop. -/
def extract_component_threats (batches : List (String × PyVal)) :
    List ComponentThreat :=
  match extractLoop batches 1 with
  | .ok ts => ts
  | .error _ => []

/-- `_get_component_weight`:
`component_weights.get(component_type.lower(), 1.0)`.  There is no local
handler, so a non-string `component_type` raises out of it. -/
def getComponentWeight (component_type : PyVal) : Except PyErr ℚ := do
  let s ← asStr component_type
  pure (match component_weights.find? (fun kv => kv.fst == lowerStr s) with
        | some kv => kv.snd
        | Option.none => 1)

/-- Add an element to a Python set modelled as an insertion-ordered
duplicate-free list; unhashable elements raise `TypeError`. -/
def setAdd (s : List PyVal) (x : PyVal) : Except PyErr (List PyVal) :=
  if !pyHashable x then .error .typeError
  else if s.any (fun y => pyEq y x) then .ok s
  else .ok (s ++ [x])

/-- The `for rel in relationships` loop of `_calculate_connectivity_score`,
collecting the set of components directly connected to `component_name`. -/
def connectedLoop (component_name : PyVal) (rels : List PyVal)
    (acc : List PyVal) : Except PyErr (List PyVal) :=
  match rels with
  | [] => .ok acc
  | rv :: rest => do
    let r ← asDict rv
    let acc ← if pyEq (dictGet r "source" .pynone) component_name then
        setAdd acc (dictGet r "target" .pynone)
      else pure acc
    let acc ← if pyEq (dictGet r "target" .pynone) component_name then
        setAdd acc (dictGet r "source" .pynone)
      else pure acc
    connectedLoop component_name rest acc

/-- The body of `_calculate_connectivity_score` (inside its `try`):
`min(1.5, 0.8 + 0.1 * number of connected components)`. -/
def connectivityBody (component_name : PyVal) (arch : PyVal) : Except PyErr ℚ := do
  let a ← asDict arch
  let rels ← pyIter (dictGet a "relationships" (.vlist []))
  let connected ← connectedLoop component_name rels []
  pure (min 1.5 (0.8 + (connected.length : ℚ) * 0.1))

/-- `_calculate_connectivity_score`: any exception is caught and `1.0` is
returned. -/
def connectivityScore (component_name : PyVal) (arch : PyVal) : ℚ :=
  match connectivityBody component_name arch with
  | .ok q => q
  | .error _ => 1

/-- The `sensitivity_indicators` list of `_assess_data_sensitivity`. -/
def sensitivity_indicators : List String :=
  ["pii", "personal", "sensitive", "credential", "payment",
   "financial", "health", "password", "secret", "key"]

/-- `next((c for c in components if c.get("name") == component_name), {})`. -/
def findComponent (component_name : PyVal) (comps : List PyVal) :
    Except PyErr (List (String × PyVal)) :=
  match comps with
  | [] => .ok []
  | cv :: rest => do
    let c ← asDict cv
    if pyEq (dictGet c "name" .pynone) component_name then pure c
    else findComponent component_name rest

/-- The body of `_assess_data_sensitivity` (inside its `try`):
`min(2.0, 1.0 + 0.2 * number of matching sensitivity indicators)`. -/
def sensitivityBody (component_name : PyVal) (arch : PyVal) : Except PyErr ℚ := do
  let a ← asDict arch
  let comps ← pyIter (dictGet a "components" (.vlist []))
  let comp ← findComponent component_name comps
  let descStr ← asStr (dictGet comp "description" (.str ""))
  let desc := lowerStr descStr ++ lowerStr (pyRender (dictGet comp "data_type" (.str "")))
  let nMatches := (sensitivity_indicators.filter (fun ind => strContains desc ind)).length
  pure (min 2 (1 + (nMatches : ℚ) * 0.2))

/-- `_assess_data_sensitivity`: any exception is caught and `1.0` is
returned. -/
def dataSensitivity (component_name : PyVal) (arch : PyVal) : ℚ :=
  match sensitivityBody component_name arch with
  | .ok q => q
  | .error _ => 1

/-- `_compute_final_score`: the product of the four factors, rounded to two
decimal places. -/
def computeFinalScore (base_score component_weight connectivity_score
    data_sensitivity : ℚ) : ℚ :=
  round2 (base_score * component_weight * connectivity_score * data_sensitivity)

/-- Score one threat: the body of `_calculate_criticality_scores`' loop.  The
only uncaught exception inside it is the one from `_get_component_weight`;
the connectivity and sensitivity helpers catch their own. -/
def scoreThreat (arch : PyVal) (t : ComponentThreat) :
    Except PyErr ComponentThreat := do
  let w ← getComponentWeight t.component_type
  let conn := connectivityScore t.component_name arch
  let sens := dataSensitivity t.component_name arch
  pure { t with criticality_score := computeFinalScore t.base_score w conn sens }

/-- The scoring loop mutates the threats in place, so when it raises the
threats already processed keep their new scores and the rest stay
unchanged. -/
def scoreLoop (arch : PyVal) : List ComponentThreat → (Bool × List ComponentThreat)
  | [] => (true, [])
  | t :: rest =>
    match scoreThreat arch t with
    | .ok t' =>
      let (ok, rest') := scoreLoop arch rest
      (ok, t' :: rest')
    | .error _ => (false, t :: rest)

/-- The key order of `sorted(threats, key=lambda x: x.criticality_score,
reverse=True)`: an already-placed threat `a` stays before a new threat `b`
when its score is at least `b`'s (stable descending order). -/
def byScoreDesc (a b : ComponentThreat) : Bool :=
  decide (b.criticality_score ≤ a.criticality_score)

/-- `_calculate_criticality_scores`: score every threat and sort descending
by score; on an exception its handler returns the list as mutated so far,
unsorted. -/
def calculateCriticalityScores (ts : List ComponentThreat) (arch : PyVal) :
    List ComponentThreat :=
  match scoreLoop arch ts with
  | (true, ts') => stableSort byScoreDesc ts'
  | (false, ts') => ts'

/-- Append `tid` under key `name` in the component-to-threat-ids mapping
(a Python dict keyed by the — arbitrary, hashable — component names). -/
def mappingAdd (m : List (PyVal × List String)) (name : PyVal) (tid : String) :
    Except PyErr (List (PyVal × List String)) :=
  if !pyHashable name then .error .typeError
  else .ok (go m)
where
  go : List (PyVal × List String) → List (PyVal × List String)
    | [] => [(name, [tid])]
    | (k, tids) :: rest =>
      if pyEq k name then (k, tids ++ [tid]) :: rest else (k, tids) :: go rest

/-- The `for component in threat.affected_components` part of
`_generate_threat_mapping`. -/
def affectedLoop (m : List (PyVal × List String)) (comps : List PyVal)
    (tid : String) : Except PyErr (List (PyVal × List String)) :=
  match comps with
  | [] => .ok m
  | c :: rest => do
    let m ← mappingAdd m c tid
    affectedLoop m rest tid

/-- `_generate_threat_mapping`.  It has no local handler: an unhashable
component name or a non-iterable `affected_components` raises out to
`compile_threat_model`. -/
def generateThreatMapping (ts : List ComponentThreat) :
    Except PyErr (List (PyVal × List String)) :=
  go ts []
where
  go : List ComponentThreat → List (PyVal × List String) →
      Except PyErr (List (PyVal × List String))
    | [], m => .ok m
    | t :: rest, m => do
      let m ← mappingAdd m t.component_name t.threat_id
      let affected ← pyIter t.affected_components
      let m ← affectedLoop m affected t.threat_id
      go rest m

/-- `_get_criticality_level`. -/
def getCriticalityLevel (score : ℚ) : String :=
  if score ≥ 8 then CriticalityLevel.CRITICAL.name
  else if score ≥ 6 then CriticalityLevel.HIGH.name
  else if score ≥ 4 then CriticalityLevel.MEDIUM.name
  else CriticalityLevel.LOW.name

/-- The record built by `_threat_to_dict`. -/
structure ThreatOut where
  threat_id : String
  threat_type : PyVal
  component_name : PyVal
  component_type : PyVal
  scenario : PyVal
  attack_vectors : PyVal
  affected_components : PyVal
  impact : PyVal
  criticality_score : ℚ
  criticality_level : String

/-- `_threat_to_dict`. -/
def threatToDict (t : ComponentThreat) : ThreatOut :=
  { threat_id := t.threat_id, threat_type := t.threat_type,
    component_name := t.component_name, component_type := t.component_type,
    scenario := t.scenario, attack_vectors := t.attack_vectors,
    affected_components := t.affected_components, impact := t.impact,
    criticality_score := t.criticality_score,
    criticality_level := getCriticalityLevel t.criticality_score }

/-- One entry of `_calculate_component_risk_levels`' rollup (the
`threat_types` set is converted to a list before being returned). -/
structure ComponentRisk where
  highest_criticality : ℚ
  threat_count : ℕ
  threat_types : List PyVal

/-- Add a threat type to the `threat_types` set. -/
def typeAdd (tys : List PyVal) (x : PyVal) : List PyVal :=
  if tys.any (fun y => pyEq y x) then tys else tys ++ [x]

/-- Update the risk rollup with one threat: keyed by the primary
`component_name` only; tracks the running maximum score (seeded with `0.0`),
a count, and the set of threat types.  An unhashable component name or threat
type raises `TypeError` (no local handler). -/
def riskAdd (m : List (PyVal × ComponentRisk)) (t : ComponentThreat) :
    Except PyErr (List (PyVal × ComponentRisk)) :=
  if !pyHashable t.component_name || !pyHashable t.threat_type then
    .error .typeError
  else .ok (go m)
where
  go : List (PyVal × ComponentRisk) → List (PyVal × ComponentRisk)
    | [] =>
      [(t.component_name,
        { highest_criticality := max 0 t.criticality_score, threat_count := 1,
          threat_types := [t.threat_type] })]
    | (k, r) :: rest =>
      if pyEq k t.component_name then
        (k, { highest_criticality := max r.highest_criticality t.criticality_score,
              threat_count := r.threat_count + 1,
              threat_types := typeAdd r.threat_types t.threat_type }) :: rest
      else (k, r) :: go rest

/-- `_calculate_component_risk_levels` (no local handler). -/
def calculateComponentRiskLevels (ts : List ComponentThreat) :
    Except PyErr (List (PyVal × ComponentRisk)) :=
  go ts []
where
  go : List ComponentThreat → List (PyVal × ComponentRisk) →
      Except PyErr (List (PyVal × ComponentRisk))
    | [], m => .ok m
    | t :: rest, m => do
      let m ← riskAdd m t
      go rest m

/-- One finding of `_identify_critical_paths`. -/
structure CriticalPath where
  path : List PyVal
  risk_level : String
  description : String

/-- Group threats by `component_name` (insertion-ordered); unhashable names
raise `TypeError`. -/
def groupAdd (m : List (PyVal × List ComponentThreat)) (t : ComponentThreat) :
    Except PyErr (List (PyVal × List ComponentThreat)) :=
  if !pyHashable t.component_name then .error .typeError
  else .ok (go m)
where
  go : List (PyVal × List ComponentThreat) → List (PyVal × List ComponentThreat)
    | [] => [(t.component_name, [t])]
    | (k, g) :: rest =>
      if pyEq k t.component_name then (k, g ++ [t]) :: rest else (k, g) :: go rest

/-- The grouping loop shared by `_identify_critical_paths` and
`_generate_component_improvements`. -/
def groupThreats (ts : List ComponentThreat) :
    Except PyErr (List (PyVal × List ComponentThreat)) :=
  go ts []
where
  go : List ComponentThreat → List (PyVal × List ComponentThreat) →
      Except PyErr (List (PyVal × List ComponentThreat))
    | [], m => .ok m
    | t :: rest, m => do
      let m ← groupAdd m t
      go rest m

/-- `component_threats.get(key, [])`: a dict lookup, raising `TypeError` on
an unhashable key. -/
def groupGet (m : List (PyVal × List ComponentThreat)) (k : PyVal) :
    Except PyErr (List ComponentThreat) :=
  if !pyHashable k then .error .typeError
  else .ok (match m.find? (fun kv => pyEq kv.fst k) with
            | some kv => kv.snd
            | Option.none => [])

/-- Process one relationship edge of `_identify_critical_paths`:
`path_criticality` is Python's `max` over the source-group scores, the
target-group scores and the sentinel `0.0` (folded here from `0`, which is
equivalent since the sentinel is in the list). -/
def edgeFinding (grouped : List (PyVal × List ComponentThreat)) (rv : PyVal) :
    Except PyErr (Option CriticalPath) := do
  let r ← asDict rv
  let source := dictGet r "source" (.str "")
  let target := dictGet r "target" (.str "")
  let sts ← groupGet grouped source
  let tts ← groupGet grouped target
  let pc := ((sts.map (fun (t : ComponentThreat) => t.criticality_score)) ++
      (tts.map (fun (t : ComponentThreat) => t.criticality_score)) ++
      [0]).foldl max 0
  if pc ≥ 7 then
    pure (some { path := [source, target],
                 risk_level := getCriticalityLevel pc,
                 description := "Critical path between " ++ pyRender source ++
                   " and " ++ pyRender target ++ " with risk score " ++
                   formatFixed1 pc })
  else pure Option.none

/-- The edge loop of `_identify_critical_paths`. -/
def edgeLoop (grouped : List (PyVal × List ComponentThreat)) :
    List PyVal → Except PyErr (List CriticalPath)
  | [] => .ok []
  | rv :: rest => do
    let f ← edgeFinding grouped rv
    let more ← edgeLoop grouped rest
    pure (match f with | some p => p :: more | Option.none => more)

/-- The body of `_identify_critical_paths` (inside its `try`). -/
def criticalPathsBody (ts : List ComponentThreat) (arch : PyVal) :
    Except PyErr (List CriticalPath) := do
  let a ← asDict arch
  let rels ← pyIter (dictGet a "relationships" (.vlist []))
  let grouped ← groupThreats ts
  edgeLoop grouped rels

/-- `_identify_critical_paths`: any exception is caught and `[]` returned. -/
def identifyCriticalPaths (ts : List ComponentThreat) (arch : PyVal) :
    List CriticalPath :=
  match criticalPathsBody ts arch with
  | .ok ps => ps
  | .error _ => []

/-- Add a string to a Python set of strings.  Python's `list(set)` iteration
order is unspecified (hash-based); it is modelled as insertion order here —
no claim depends on the order of these suggestion lists. -/
def strSetAdd (s : List String) (x : String) : List String :=
  if s.any (fun y => y == x) then s else s ++ [x]

/-- `set.update` with a list of strings. -/
def strSetUnion (s : List String) (xs : List String) : List String :=
  xs.foldl strSetAdd s

/-- The body of `_generate_component_improvements` (no local handler; errors
escape to `_generate_improvements`' handler). -/
def componentImprovementsBody (ts : List ComponentThreat) :
    Except PyErr (List String) := do
  let grouped ← groupThreats ts
  pure (grouped.foldl (fun acc kv =>
    let high := kv.snd.filter (fun t => decide (t.criticality_score ≥ 7))
    if high.isEmpty then acc
    else strSetAdd acc ("Prioritize security hardening for " ++ pyRender kv.fst ++
      " due to " ++ toString high.length ++ " high-risk threats")) [])

/-- The relationship loop of `_generate_architecture_improvements`. -/
def archRelLoop (rels : List PyVal) (acc : List String) :
    Except PyErr (List String) :=
  match rels with
  | [] => .ok acc
  | rv :: rest => do
    let r ← asDict rv
    let source := dictGet r "source" (.str "")
    let target := dictGet r "target" (.str "")
    let df ← asStr (dictGet r "data_flow" (.str ""))
    let acc :=
      if ["sensitive", "credential", "token"].any
          (fun term => strContains (lowerStr df) term) then
        strSetAdd acc ("Implement encrypted communication channel between " ++
          pyRender source ++ " and " ++ pyRender target)
      else acc
    archRelLoop rest acc

/-- The component-name comprehension of
`_generate_architecture_improvements`. -/
def archNameLoop (comps : List PyVal) : Except PyErr (List String) :=
  match comps with
  | [] => .ok []
  | cv :: rest => do
    let c ← asDict cv
    let n ← asStr (dictGet c "name" (.str ""))
    let more ← archNameLoop rest
    pure (lowerStr n :: more)

/-- The body of `_generate_architecture_improvements` (no local handler). -/
def archImprovementsBody (arch : PyVal) : Except PyErr (List String) := do
  let a ← asDict arch
  let rels ← pyIter (dictGet a "relationships" (.vlist []))
  let s1 ← archRelLoop rels []
  let comps ← pyIter (dictGet a "components" (.vlist []))
  let names ← archNameLoop comps
  let s2 :=
    if names.any (fun n => strContains n "waf") then s1
    else strSetAdd s1 "Consider implementing a Web Application Firewall (WAF)"
  let s3 :=
    if names.any (fun n => strContains n "gateway") then s2
    else strSetAdd s2
      "Consider implementing an API Gateway for centralized security controls"
  pure s3

/-- The technology loop of `_generate_technology_improvements` for one
component. -/
def techLoop (compName : PyVal) (techs : List PyVal) (acc : List String) :
    Except PyErr (List String) :=
  match techs with
  | [] => .ok acc
  | tv :: rest => do
    let t ← asDict tv
    let tn ← asStr (dictGet t "name" (.str ""))
    let tech_name := lowerStr tn
    let acc :=
      if ["mysql", "postgresql", "mongodb"].any (fun x => x == tech_name) then
        strSetAdd acc ("Implement database encryption at rest for " ++
          pyRender compName)
      else acc
    let acc :=
      if ["redis", "memcached"].any (fun x => x == tech_name) then
        strSetAdd acc ("Implement cache entry encryption for " ++ pyRender compName)
      else acc
    let acc :=
      if strContains tech_name "oauth" || strContains tech_name "auth" then
        strSetAdd acc "Implement OAuth 2.0 with PKCE for secure authentication"
      else acc
    techLoop compName rest acc

/-- The component loop of `_generate_technology_improvements`. -/
def techCompLoop (comps : List PyVal) (acc : List String) :
    Except PyErr (List String) :=
  match comps with
  | [] => .ok acc
  | cv :: rest => do
    let c ← asDict cv
    let techs ← pyIter (dictGet c "technologies" (.vlist []))
    let acc ← techLoop (dictGet c "name" (.str "")) techs acc
    techCompLoop rest acc

/-- The body of `_generate_technology_improvements` (no local handler). -/
def techImprovementsBody (arch : PyVal) : Except PyErr (List String) := do
  let a ← asDict arch
  let comps ← pyIter (dictGet a "components" (.vlist []))
  techCompLoop comps []

/-- `_generate_improvements`: the union of the three generators; any
exception is caught and `[]` returned. -/
def generateImprovements (ts : List ComponentThreat) (arch : PyVal) :
    List String :=
  match (do
      let ci ← componentImprovementsBody ts
      let ai ← archImprovementsBody arch
      let ti ← techImprovementsBody arch
      pure (strSetUnion (strSetUnion (strSetUnion [] ci) ai) ti) :
      Except PyErr (List String)) with
  | .ok l => l
  | .error _ => []

/-- The `risk_summary` record of `_generate_risk_summary`. -/
structure RiskSummary where
  risk_distribution : List (String × ℕ)
  threat_distribution : List (PyVal × ℕ)
  total_threats : ℕ
  affected_components : ℕ
  highest_risks : List (PyVal × ℚ × PyVal)
  most_affected_components : List (PyVal × ℕ)

/-- Increment a string-keyed counter dict. -/
def bumpKeyS (m : List (String × ℕ)) (k : String) : List (String × ℕ) :=
  m.map (fun kv => if kv.fst == k then (kv.fst, kv.snd + 1) else kv)

/-- `threat_types[t] = threat_types.get(t, 0) + 1` with an arbitrary
(hashable) key. -/
def bumpKeyP (m : List (PyVal × ℕ)) (k : PyVal) : Except PyErr (List (PyVal × ℕ)) :=
  if !pyHashable k then .error .typeError
  else if m.any (fun kv => pyEq kv.fst k) then
    .ok (m.map (fun kv => if pyEq kv.fst k then (kv.fst, kv.snd + 1) else kv))
  else .ok (m ++ [(k, 1)])

/-- `set.update(v)`: iterate `v` and add every element. -/
def setUpdate (s : List PyVal) (v : PyVal) : Except PyErr (List PyVal) := do
  let xs ← pyIter v
  xs.foldlM setAdd s

/-- The analysis loop of `_generate_risk_summary`: the per-band counters, the
threat-type counters and the affected-components set. -/
def summaryCounts : List ComponentThreat →
    (List (String × ℕ) × List (PyVal × ℕ) × List PyVal) →
    Except PyErr (List (String × ℕ) × List (PyVal × ℕ) × List PyVal)
  | [], acc => .ok acc
  | t :: rest, (rl, tt, ac) => do
    let rl := bumpKeyS rl (lowerStr (getCriticalityLevel t.criticality_score))
    let tt ← bumpKeyP tt t.threat_type
    let ac ← setAdd ac t.component_name
    let ac ← setUpdate ac t.affected_components
    summaryCounts rest (rl, tt, ac)

/-- Python `sorted` over the affected-components set: all-string sets sort
lexicographically, all-number sets numerically; mixed element types raise
`TypeError`. -/
def pySorted (xs : List PyVal) : Except PyErr (List PyVal) :=
  if xs.all (fun x => match x with | .str _ => true | _ => false) then
    .ok (stableSort (fun a b =>
      match a, b with
      | .str x, .str y => lexLe x y
      | _, _ => true) xs)
  else if xs.all (fun x => match x with | .num _ => true | _ => false) then
    .ok (stableSort (fun a b =>
      match a, b with
      | .num x, .num y => decide (x ≤ y)
      | _, _ => true) xs)
  else .error .typeError

/-- `sum(1 for t in threats if comp in [t.component_name] +
t.affected_components)`: the `+` requires `affected_components` to be a
list. -/
def mostAffectedCount (ts : List ComponentThreat) (comp : PyVal) :
    Except PyErr ℕ :=
  match ts with
  | [] => .ok 0
  | t :: rest =>
    match t.affected_components with
    | .vlist xs => do
      let n ← mostAffectedCount rest comp
      pure (if (t.component_name :: xs).any (fun y => pyEq y comp) then n + 1 else n)
    | _ => .error .typeError

/-- The body of `_generate_risk_summary` (inside its `try`). -/
def riskSummaryBody (ts : List ComponentThreat) : Except PyErr RiskSummary := do
  let (rl, tt, ac) ← summaryCounts ts
    ([("critical", 0), ("high", 0), ("medium", 0), ("low", 0)], [], [])
  let sortedAc ← pySorted ac
  let mac ← sortedAc.mapM (fun c => do
    let n ← mostAffectedCount ts c
    pure (c, n))
  pure { risk_distribution := rl, threat_distribution := tt,
         total_threats := ts.length, affected_components := ac.length,
         highest_risks := ((stableSort byScoreDesc ts).take 5).map
           (fun t => (t.component_name, t.criticality_score, t.threat_type)),
         most_affected_components := mac }

/-- The empty summary returned by `_generate_risk_summary`'s handler. -/
def defaultRiskSummary : RiskSummary :=
  { risk_distribution := [], threat_distribution := [], total_threats := 0,
    affected_components := 0, highest_risks := [], most_affected_components := [] }

/-- `_generate_risk_summary`: any exception is caught and the empty summary
returned. -/
def generateRiskSummary (ts : List ComponentThreat) : RiskSummary :=
  match riskSummaryBody ts with
  | .ok s => s
  | .error _ => defaultRiskSummary

/-- The compiled model: the dict built by `_compile_final_model`.  The
`risk_summary` of `_get_empty_model` is the bare `{}`, modelled as
`Option.none`. -/
structure CompiledModel where
  threat_model : List ThreatOut
  component_mapping : List (PyVal × List String)
  component_risk_levels : List (PyVal × ComponentRisk)
  critical_paths : List CriticalPath
  improvement_suggestions : List String
  risk_summary : Option RiskSummary

/-- `_get_empty_model`. -/
def emptyModel : CompiledModel :=
  { threat_model := [], component_mapping := [], component_risk_levels := [],
    critical_paths := [], improvement_suggestions := [],
    risk_summary := Option.none }

/-- `_compile_final_model`: the only failure point without a local handler is
`_calculate_component_risk_levels`. -/
def compileFinalModel (ts : List ComponentThreat)
    (mapping : List (PyVal × List String)) (arch : PyVal) :
    Except PyErr CompiledModel := do
  let rl ← calculateComponentRiskLevels ts
  pure { threat_model := ts.map threatToDict, component_mapping := mapping,
         component_risk_levels := rl,
         critical_paths := identifyCriticalPaths ts arch,
         improvement_suggestions := generateImprovements ts arch,
         risk_summary := some (generateRiskSummary ts) }

/-- The body of `compile_threat_model` (inside its outer `try`). -/
def compileBody (batches : List (String × PyVal)) (arch : PyVal) :
    Except PyErr CompiledModel := do
  let ts := extract_component_threats batches
  let scored := calculateCriticalityScores ts arch
  let mapping ← generateThreatMapping scored
  compileFinalModel scored mapping arch

/-- `compile_threat_model`: any exception from the pipeline is caught by the
outer handler and the empty model returned. -/
def compile_threat_model (batches : List (String × PyVal)) (arch : PyVal) :
    CompiledModel :=
  match compileBody batches arch with
  | .ok m => m
  | .error _ => emptyModel

/-! ### services/agents/agent.py -/

/-- The `try` body of the per-field score normalization in
`_get_llm_analysis`: a string containing `'/'` is split on `'/'` and
unpacked into exactly two parts (any other arity raises `ValueError`), each
part is stripped and parsed with `float`, and the quotient is rescaled by 10
(a zero denominator raises `ZeroDivisionError`); every other value goes
directly through `float(...)`. -/
def normalizeScoreBody (v : PyVal) : Except PyErr ℚ :=
  match v with
  | .str s =>
    if s.data.contains '/' then
      match splitOnChar s '/' with
      | [n, d] => do
        let nq ← pyFloat (.str (stripStr n))
        let dq ← pyFloat (.str (stripStr d))
        if dq == 0 then .error .zeroDivisionError
        else pure (nq / dq * 10)
      | _ => .error .valueError
    else pyFloat v
  | _ => pyFloat v

/-- One score field together with its `except (ValueError, TypeError)`
handler, which defaults the field to `5.0`; any other exception — in
particular `ZeroDivisionError` — propagates out of the per-threat handler. -/
def normalizeScoreField (v : PyVal) : Except PyErr ℚ :=
  match normalizeScoreBody v with
  | .ok q => .ok q
  | .error .valueError => .ok 5
  | .error .typeError => .ok 5
  | .error e => .error e

/-- The per-threat step of `_get_llm_analysis`' normalization loop: the
`risk_score` and `criticality_score` fields are normalized in place when
present, then the threat is tagged with the agent's name as `source`.
A threat record that is not a dict raises `TypeError` (at the `in` test, the
indexed read, or the indexed assignment, depending on its type). -/
def llmNormalizeThreat (agentName : String) : PyVal → Except PyErr PyVal
  | .vdict t => do
    let t ← if hasKey t "risk_score" then do
        let q ← normalizeScoreField (dictGet t "risk_score" .pynone)
        pure (dictSet t "risk_score" (.num q))
      else pure t
    let t ← if hasKey t "criticality_score" then do
        let q ← normalizeScoreField (dictGet t "criticality_score" .pynone)
        pure (dictSet t "criticality_score" (.num q))
      else pure t
    pure (.vdict (dictSet t "source" (.str agentName)))
  | _ => .error .typeError

/-- The normalization loop of `_get_llm_analysis` over
`raw_result["threats"]`, composed with the function's outer
`except Exception` handler: an exception escaping the loop replaces the whole
analysis with `_get_empty_response()`, which carries no threats at all. -/
def llmNormalizeThreats (agentName : String) (tvs : List PyVal) : List PyVal :=
  match tvs.mapM (llmNormalizeThreat agentName) with
  | .ok ts => ts
  | .error _ => []

/-- `' '.join` and `' + '.join`. -/
def joinWith (sep : String) : List String → String
  | [] => ""
  | [s] => s
  | s :: rest => s ++ sep ++ joinWith sep rest

/-- The normalized scenario key of `_deduplicate_threats`: the scenario
lowercased, its `\w+` tokens taken as a set, sorted, and joined with single
spaces. -/
def normKey (scenario : String) : String :=
  joinWith " " (stableSort lexLe (findWords (lowerStr scenario)).eraseDups)

/-- `set(v)` for an iterable Python value. -/
def pySet (v : PyVal) : Except PyErr (List PyVal) := do
  let xs ← pyIter v
  xs.foldlM setAdd []

/-- The merge branch of `_deduplicate_threats`: `source` becomes the
f-string `"{old} + {new}"`, `affected_components` the set union, and
`criticality_score` the maximum of the two `float`-coerced scores.
`attack_vectors` and `mitigations` are not touched. -/
def dedupMerge (existing t : List (String × PyVal)) :
    Except PyErr (List (String × PyVal)) := do
  let existing := dictSet existing "source"
    (.str (pyRender (dictGet existing "source" (.str "")) ++ " + " ++
           pyRender (dictGet t "source" (.str ""))))
  let ec ← pySet (dictGet existing "affected_components" (.vlist []))
  let nc ← pySet (dictGet t "affected_components" (.vlist []))
  let union ← nc.foldlM setAdd ec
  let existing := dictSet existing "affected_components" (.vlist union)
  let eq ← pyFloat (dictGet existing "criticality_score" (.num 0))
  let nq ← pyFloat (dictGet t "criticality_score" (.num 0))
  pure (dictSet existing "criticality_score" (.num (max eq nq)))

/-- The loop of `_deduplicate_threats`.  `seen_scenarios` maps each
normalized key to the first-seen threat record, which Python holds by
reference: the merge branch mutates the very record stored in
`unique_threats`, modelled here by an index into the output list. -/
def dedupLoop (tvs : List PyVal) (seen : List (String × ℕ))
    (out : List (List (String × PyVal))) :
    Except PyErr (List (List (String × PyVal))) :=
  match tvs with
  | [] => .ok out
  | tv :: rest => do
    let t ← asDict tv
    let scn ← asStr (dictGet t "Scenario" (.str ""))
    let key := normKey scn
    match seen.find? (fun kv => kv.fst == key) with
    | Option.none => dedupLoop rest (seen ++ [(key, out.length)]) (out ++ [t])
    | some kv => do
      let merged ← dedupMerge (out.getD kv.snd []) t
      dedupLoop rest seen (out.set kv.snd merged)

/-- `_deduplicate_threats`.  It has no handler of its own (and no callers in
the repository): a non-string scenario, a non-iterable component list or an
unparseable score raises out of it. -/
def dedupThreats (tvs : List PyVal) :
    Except PyErr (List (List (String × PyVal))) :=
  dedupLoop tvs [] []

/-- Python list concatenation, as used by `_merge_threat_info`
(`TypeError` unless both operands are lists). -/
def concatLists (a b : PyVal) : Except PyErr (List PyVal) :=
  match a, b with
  | .vlist xs, .vlist ys => .ok (xs ++ ys)
  | _, _ => .error .typeError

/-- `list(set(existing.get(k, []) + new.get(k, [])))`. -/
def mergeField (existing t : List (String × PyVal)) (k : String) :
    Except PyErr PyVal := do
  let xs ← concatLists (dictGet existing k (.vlist [])) (dictGet t k (.vlist []))
  let s ← xs.foldlM setAdd []
  pure (.vlist s)

/-- `_merge_threat_info`: the separate merge helper that set-unions
`attack_vectors`, `affected_components`, `cves` and `mitigations` and
rebuilds `source` from the set of the two tags.  It is defined in
`agent.py` but never invoked — in particular not by
`_deduplicate_threats`. -/
def mergeThreatInfo (existing t : List (String × PyVal)) :
    Except PyErr (List (String × PyVal)) := do
  let av ← mergeField existing t "attack_vectors"
  let existing := dictSet existing "attack_vectors" av
  let ac ← mergeField existing t "affected_components"
  let existing := dictSet existing "affected_components" ac
  let cv ← mergeField existing t "cves"
  let existing := dictSet existing "cves" cv
  let mi ← mergeField existing t "mitigations"
  let existing := dictSet existing "mitigations" mi
  let s1 := dictGet existing "source" (.str "")
  let s2 := dictGet t "source" (.str "")
  if !pyHashable s1 || !pyHashable s2 then .error .typeError
  else do
    let vs := if pyEq s1 s2 then [s1] else [s1, s2]
    let vs := vs.filter pyTruthy
    let ss ← vs.mapM (fun v => match v with
      | .str s => Except.ok s
      | _ => Except.error PyErr.typeError)
    pure (dictSet existing "source" (.str (joinWith " + " ss)))

/-! ### Shared concrete inputs and helper definitions for the theorems -/

/-- The empty architecture graph: no components and no relationships. -/
def emptyArch : PyVal :=
  .vdict [("components", .vlist []), ("relationships", .vlist [])]

/-- The weight-table lookup applied to a component-type string (the value
`_get_component_weight` produces when `component_type` is a string). -/
def weightOf (s : String) : ℚ :=
  match component_weights.find? (fun kv => kv.fst == lowerStr s) with
  | some kv => kv.snd
  | Option.none => 1

/-- A concrete frontend threat with base score 5 (so component weight 1). -/
def c1Threat : ComponentThreat :=
  { threat_id := "THREAT-001", threat_type := .str "Spoofing",
    component_name := .str "Frontend", component_type := .str "frontend",
    scenario := .str "x", attack_vectors := .vlist [],
    affected_components := .vlist [], impact := .str "", base_score := 5,
    criticality_score := 0, mitigations := [] }

/-! ### Theorems for the claims -/

/-- C6: the severity band function classifies a criticality score as
`CRITICAL` exactly when it is ≥ 8, `HIGH` exactly on [6, 8), `MEDIUM`
exactly on [4, 6) and `LOW` exactly below 4; in particular a score of
exactly 8.00 is `CRITICAL` and 7.99 is `HIGH`. -/
theorem c6_severity_bands (score : ℚ) :
    (getCriticalityLevel score = "CRITICAL" ↔ 8 ≤ score) ∧
    (getCriticalityLevel score = "HIGH" ↔ 6 ≤ score ∧ score < 8) ∧
    (getCriticalityLevel score = "MEDIUM" ↔ 4 ≤ score ∧ score < 6) ∧
    (getCriticalityLevel score = "LOW" ↔ score < 4) ∧
    getCriticalityLevel 8 = "CRITICAL" ∧
    getCriticalityLevel (799/100) = "HIGH" := by
  refine ⟨?_, ?_, ?_, ?_,
    by norm_num [getCriticalityLevel, CriticalityLevel.name],
    by norm_num [getCriticalityLevel, CriticalityLevel.name]⟩ <;>
    (unfold getCriticalityLevel CriticalityLevel.name
     split_ifs with h1 h2 h3 <;> simp_all <;> intros <;> linarith)

/-- On the empty graph the traversed relationship list is empty, so the
connectivity factor is `min(1.5, 0.8 + 0.1·0) = 0.8` — not 1.0. -/
theorem connectivityScore_emptyArch (name : PyVal) :
    connectivityScore name emptyArch = 8/10 := by
  have hrel : dictGet [("components", PyVal.vlist []), ("relationships", PyVal.vlist [])]
      "relationships" (PyVal.vlist []) = PyVal.vlist [] := rfl
  unfold connectivityScore connectivityBody
  norm_num [emptyArch, asDict, hrel, pyIter, connectedLoop, bind, Except.bind,
    pure, Except.pure]

/-- On the empty graph no component record is found, the probed description
is empty, and the sensitivity factor is `min(2.0, 1.0 + 0.2·0) = 1.0`. -/
theorem dataSensitivity_emptyArch (name : PyVal) :
    dataSensitivity name emptyArch = 1 := by
  have hcomp : dictGet [("components", PyVal.vlist []), ("relationships", PyVal.vlist [])]
      "components" (PyVal.vlist []) = PyVal.vlist [] := rfl
  have hl : lowerStr "" = "" := rfl
  have happ : ("" : String) ++ ("" : String) = "" := rfl
  have hf : (sensitivity_indicators.filter (fun ind => strContains "" ind)) = [] := by
    decide
  unfold dataSensitivity sensitivityBody
  norm_num [emptyArch, asDict, hcomp, pyIter, findComponent, dictGet,
    List.find?, asStr, pyRender, hl, happ, hf, bind, Except.bind, pure,
    Except.pure]

/-- `_get_component_weight` on a string `component_type` is the pure table
lookup. -/
theorem getComponentWeight_str (s : String) :
    getComponentWeight (.str s) = .ok (weightOf s) := rfl

/-- Scoring one threat against the empty graph multiplies its base score by
the component weight and the constant connectivity factor 0.8. -/
theorem scoreThreat_emptyArch (t : ComponentThreat) (s : String)
    (h : t.component_type = .str s) :
    scoreThreat emptyArch t =
      .ok { t with criticality_score := round2 (t.base_score * weightOf s * (8/10)) } := by
  unfold scoreThreat
  rw [h, getComponentWeight_str]
  simp [bind, Except.bind, pure, Except.pure, connectivityScore_emptyArch,
    dataSensitivity_emptyArch, computeFinalScore, mul_one]

/-- C1 (counterexample): the concrete frontend threat with base score 5.0 and
component weight 1.0, scored against the empty architecture graph, gets
criticality score 4.0, whereas `base_score × component_weight` is 5.0 — the
factors are not both 1.0 on an empty graph. -/
theorem c1_counterexample :
    (calculateCriticalityScores [c1Threat] emptyArch).map
      (fun t => t.criticality_score) = [4] ∧
    c1Threat.base_score * weightOf "frontend" = 5 ∧ (4 : ℚ) < 5 := by
  have hw : weightOf "frontend" = 1 := rfl
  refine ⟨?_, by norm_num [c1Threat, hw], by norm_num⟩
  have hs := scoreThreat_emptyArch c1Threat "frontend" rfl
  simp only [calculateCriticalityScores, scoreLoop, hs, stableSort,
    List.foldl, stableInsert, List.map]
  have hfind : List.find? (fun kv => kv.fst == lowerStr "frontend") component_weights
      = some ("frontend", 1) := rfl
  norm_num [computeFinalScore, round2, roundHalfEven, hfind, c1Threat,
    Int.fract, connectivityScore_emptyArch, dataSensitivity_emptyArch]

/-- C1 (amended): against an empty architecture graph the sensitivity factor
is 1.0 but the connectivity factor is 0.8 (`min(1.5, 0.8 + 0.1·connections)`
with zero connections); hence the computed criticality score equals
`round(base_score × component_weight × 0.8, 2)`, not
`base_score × component_weight`. -/
theorem c1_amended (t : ComponentThreat) (s : String)
    (h : t.component_type = .str s) :
    connectivityScore t.component_name emptyArch = 8/10 ∧
    dataSensitivity t.component_name emptyArch = 1 ∧
    calculateCriticalityScores [t] emptyArch =
      [{ t with criticality_score := round2 (t.base_score * weightOf s * (8/10)) }] := by
  refine ⟨connectivityScore_emptyArch _, dataSensitivity_emptyArch _, ?_⟩
  have hs := scoreThreat_emptyArch t s h
  simp [calculateCriticalityScores, scoreLoop, hs, stableSort, stableInsert]

/-- `float(s)` on a nonempty plain string of decimal digits yields its
decimal value (the side conditions are all decidable facts about the digit
string). -/
theorem parsePyFloat_digits (s : String)
    (h1 : s.data.dropWhile Char.isWhitespace = s.data)
    (h2 : s.data.reverse.dropWhile Char.isWhitespace = s.data.reverse)
    (h3 : underscoresOk s.data = true)
    (h4 : s.data.filter (fun c => c != '_') = s.data)
    (h5 : s.data.takeWhile Char.isDigit = s.data)
    (h6 : s.data.dropWhile Char.isDigit = [])
    (h7 : s.data.head? ≠ some '+')
    (h8 : s.data.head? ≠ some '-')
    (h9 : s.data ≠ []) :
    parsePyFloat s = some (digitsToNat s.data) := by
  simp only [parsePyFloat, h1, h2, List.reverse_reverse, h3, h4, Bool.not_true,
    Bool.false_eq_true, if_false]
  rcases hsd : s.data with _ | ⟨c, rest⟩
  · exact absurd hsd h9
  rw [hsd] at h5 h6 h7 h8
  split
  · next rest' heq =>
    rw [heq] at h7
    simp at h7
  · next rest' heq =>
    rw [heq] at h8
    simp at h8
  · next cs hne1 hne2 =>
    unfold parseUnsignedFloat
    rw [h5, h6]
    simp only [List.isEmpty_cons, Bool.false_eq_true, if_false, parseExp]
    norm_num [applyExp]

/-- C1 (witness for the amended theorem). -/
theorem c1_amended_witness :
    c1Threat.component_type = PyVal.str "frontend" ∧
    (connectivityScore c1Threat.component_name emptyArch = 8/10 ∧
     dataSensitivity c1Threat.component_name emptyArch = 1 ∧
     calculateCriticalityScores [c1Threat] emptyArch =
       [{ c1Threat with
          criticality_score := round2 (c1Threat.base_score * weightOf "frontend" * (8/10)) }]) :=
  ⟨rfl, c1_amended c1Threat "frontend" rfl⟩

/-- A threat record whose `risk_score` is the well-formed fraction string
`"7/10"`. -/
def c2Good : PyVal :=
  .vdict [("Scenario", .str "token theft"), ("risk_score", .str "7/10")]

/-- A threat record whose `risk_score` is the fraction string `"5/0"` with a
zero denominator. -/
def c2Bad : PyVal :=
  .vdict [("Scenario", .str "other"), ("risk_score", .str "5/0")]

/-- `float("7") == 7.0`. -/
theorem parse_7 : parsePyFloat (stripStr "7") = some 7 := by
  have h : stripStr "7" = "7" := by decide
  have hv : digitsToNat "7".data = 7 := rfl
  rw [h, parsePyFloat_digits "7" (by decide) (by decide) (by decide) (by decide)
    (by decide) (by decide) (by decide) (by decide) (by decide), hv]
  norm_num

/-- `float("10") == 10.0`. -/
theorem parse_10 : parsePyFloat (stripStr "10") = some 10 := by
  have h : stripStr "10" = "10" := by decide
  have hv : digitsToNat "10".data = 10 := rfl
  rw [h, parsePyFloat_digits "10" (by decide) (by decide) (by decide) (by decide)
    (by decide) (by decide) (by decide) (by decide) (by decide), hv]
  norm_num

/-- `float("5") == 5.0`. -/
theorem parse_5 : parsePyFloat (stripStr "5") = some 5 := by
  have h : stripStr "5" = "5" := by decide
  have hv : digitsToNat "5".data = 5 := rfl
  rw [h, parsePyFloat_digits "5" (by decide) (by decide) (by decide) (by decide)
    (by decide) (by decide) (by decide) (by decide) (by decide), hv]
  norm_num

/-- `float("0") == 0.0`. -/
theorem parse_0 : parsePyFloat (stripStr "0") = some 0 := by
  have h : stripStr "0" = "0" := by decide
  have hv : digitsToNat "0".data = 0 := rfl
  rw [h, parsePyFloat_digits "0" (by decide) (by decide) (by decide) (by decide)
    (by decide) (by decide) (by decide) (by decide) (by decide), hv]
  norm_num

/-- C2 (amended): per score value, a `'/'`-string is parsed as a fraction and
rescaled by 10; numbers and numeric strings coerce directly; failures raising
`ValueError` or `TypeError` default that one field to 5.0; but a fraction
whose denominator is zero raises `ZeroDivisionError`, which escapes the
per-threat handler, and the whole batch is then replaced by the empty
response (no threats at all). -/
theorem c2_amended :
    (∀ s n d q1 q2, s.data.contains '/' = true → splitOnChar s '/' = [n, d] →
      parsePyFloat (stripStr n) = some q1 → parsePyFloat (stripStr d) = some q2 →
      q2 ≠ 0 → normalizeScoreField (.str s) = .ok (q1 / q2 * 10)) ∧
    (∀ q, normalizeScoreField (.num q) = .ok q) ∧
    (∀ s q, s.data.contains '/' = false → parsePyFloat s = some q →
      normalizeScoreField (.str s) = .ok q) ∧
    (∀ s, s.data.contains '/' = false → parsePyFloat s = Option.none →
      normalizeScoreField (.str s) = .ok 5) ∧
    (∀ xs, normalizeScoreField (.vlist xs) = .ok 5) ∧
    (normalizeScoreField .pynone = .ok 5) ∧
    (∀ s n d q1, s.data.contains '/' = true → splitOnChar s '/' = [n, d] →
      parsePyFloat (stripStr n) = some q1 → parsePyFloat (stripStr d) = some 0 →
      normalizeScoreField (.str s) = .error .zeroDivisionError) ∧
    (∀ name tvs res, tvs.mapM (llmNormalizeThreat name) = .ok res →
      llmNormalizeThreats name tvs = res) ∧
    (∀ name tvs e, tvs.mapM (llmNormalizeThreat name) = .error e →
      llmNormalizeThreats name tvs = []) := by
  refine ⟨?_, ?_, ?_, ?_, ?_, ?_, ?_, ?_, ?_⟩
  · intro s n d q1 q2 hc hs hn hd hq2
    have hb : (q2 == 0) = false := by simp [hq2]
    have hc' : '/' ∈ s.data := by simpa using hc
    simp [normalizeScoreField, normalizeScoreBody, hc', hs, pyFloat, hn, hd, hb,
      bind, Except.bind, pure, Except.pure]
  · intro q
    simp [normalizeScoreField, normalizeScoreBody, pyFloat]
  · intro s q hc hp
    have hc' : '/' ∉ s.data := by simpa using hc
    simp [normalizeScoreField, normalizeScoreBody, hc', pyFloat, hp]
  · intro s hc hp
    have hc' : '/' ∉ s.data := by simpa using hc
    simp [normalizeScoreField, normalizeScoreBody, hc', pyFloat, hp]
  · intro xs
    simp [normalizeScoreField, normalizeScoreBody, pyFloat]
  · simp [normalizeScoreField, normalizeScoreBody, pyFloat]
  · intro s n d q1 hc hs hn hd
    have hc' : '/' ∈ s.data := by simpa using hc
    simp [normalizeScoreField, normalizeScoreBody, hc', hs, pyFloat, hn, hd,
      bind, Except.bind, pure, Except.pure]
  · intro name tvs res h
    unfold llmNormalizeThreats
    rw [h]
  · intro name tvs e h
    unfold llmNormalizeThreats
    rw [h]

/-- `"7/10"` normalizes to 7.0. -/
theorem normalizeScoreField_710 : normalizeScoreField (.str "7/10") = .ok 7 := by
  have h := c2_amended.1 "7/10" "7" "10" 7 10 (by decide) (by decide)
    parse_7 parse_10 (by norm_num)
  rw [h]
  norm_num

/-- `"5/0"` raises `ZeroDivisionError` out of the per-threat handler. -/
theorem normalizeScoreField_50 :
    normalizeScoreField (.str "5/0") = .error .zeroDivisionError :=
  c2_amended.2.2.2.2.2.2.1 "5/0" "5" "0" 5 (by decide) (by decide) parse_5 parse_0

/-- The well-formed threat record normalizes to a tagged record with score
7.0. -/
theorem llm_good : llmNormalizeThreat "SpoofingExpert" c2Good =
    .ok (.vdict [("Scenario", .str "token theft"), ("risk_score", .num 7),
                 ("source", .str "SpoofingExpert")]) := by
  have hk1 : hasKey [("Scenario", PyVal.str "token theft"),
      ("risk_score", PyVal.str "7/10")] "risk_score" = true := by decide
  have hk2 : hasKey [("Scenario", PyVal.str "token theft"),
      ("risk_score", PyVal.num 7)] "criticality_score" = false := rfl
  simp [llmNormalizeThreat, c2Good, hk1, dictGet, List.find?, dictSet,
    normalizeScoreField_710, bind, Except.bind, pure, Except.pure, hk2]

/-- The zero-denominator record raises out of the loop. -/
theorem llm_bad : llmNormalizeThreat "SpoofingExpert" c2Bad =
    .error .zeroDivisionError := by
  have hk1 : hasKey [("Scenario", PyVal.str "other"),
      ("risk_score", PyVal.str "5/0")] "risk_score" = true := by decide
  simp [llmNormalizeThreat, c2Bad, hk1, dictGet, List.find?, dictSet,
    normalizeScoreField_50, bind, Except.bind, pure, Except.pure]

/-- C2 (counterexample): the batch `[good, bad]`, where `good` carries
`risk_score "7/10"` and `bad` carries `risk_score "5/0"`, is scrapped whole:
alone, `good` is normalized to 7.0, but combined with `bad` the
`ZeroDivisionError` escapes the per-threat handler and the outer handler
returns the empty response — the other threat is not preserved. -/
theorem c2_counterexample :
    llmNormalizeThreats "SpoofingExpert" [c2Good] =
      [.vdict [("Scenario", .str "token theft"), ("risk_score", .num 7),
               ("source", .str "SpoofingExpert")]] ∧
    llmNormalizeThreats "SpoofingExpert" [c2Good, c2Bad] = [] := by
  constructor <;>
    simp [llmNormalizeThreats, List.mapM, List.mapM.loop, llm_good,
      llm_bad, bind, Except.bind, pure, Except.pure]

/-- C2 (witness for the amended theorem). -/
theorem c2_amended_witness :
    normalizeScoreField (.str "7/10") = .ok (7 / 10 * 10) ∧
    normalizeScoreField (.num 3) = .ok 3 ∧
    normalizeScoreField (.str "5/0") = .error .zeroDivisionError ∧
    llmNormalizeThreats "SpoofingExpert" [c2Good, c2Bad] = [] :=
  ⟨c2_amended.1 "7/10" "7" "10" 7 10 (by decide) (by decide) parse_7 parse_10
      (by norm_num),
   c2_amended.2.1 3,
   c2_amended.2.2.2.2.2.2.1 "5/0" "5" "0" 5 (by decide) (by decide) parse_5 parse_0,
   c2_amended.2.2.2.2.2.2.2.2 "SpoofingExpert" [c2Good, c2Bad]
     PyErr.zeroDivisionError
     (by simp [List.mapM, List.mapM.loop, llm_good, llm_bad, bind,
       Except.bind, pure, Except.pure])⟩

/-- A batch whose only threat record has no `Scenario` field at all. -/
def c3Batch : List (String × PyVal) :=
  [("SpoofingExpert",
    .vdict [("threats", .vlist [.vdict [("Threat Type", .str "Spoofing")]])])]

/-- The normalized form of the scenario-less record: it is kept, with
`scenario` coerced to the empty string. -/
def c3T : ComponentThreat :=
  { threat_id := "THREAT-001", threat_type := .str "Spoofing",
    component_name := .str "System", component_type := .str "Unknown",
    scenario := .str "", attack_vectors := .vlist [],
    affected_components := .vlist [], impact := .str "", base_score := 5,
    criticality_score := 0, mitigations := [] }

/-- Extraction keeps the scenario-less record. -/
theorem c3_extract : extract_component_threats c3Batch = [c3T] := rfl

/-- The scenario-less record is scored like any other (4.0 here). -/
theorem c3_scored :
    calculateCriticalityScores [c3T] emptyArch =
      [{ c3T with criticality_score := 4 }] := by
  have hs := scoreThreat_emptyArch c3T "Unknown" rfl
  have hw : weightOf "Unknown" = 1 := rfl
  have hr : round2 (c3T.base_score * weightOf "Unknown" * (8/10)) = 4 := by
    norm_num [c3T, hw, round2, roundHalfEven, Int.fract]
  simp [calculateCriticalityScores, scoreLoop, hs, hr, stableSort, stableInsert]

/-- C3 (counterexample): a raw threat with no scenario field is not rejected:
the compiled model contains exactly that threat, with `Scenario` coerced to
the empty string. -/
theorem c3_counterexample :
    (compile_threat_model c3Batch emptyArch).threat_model.map
      (fun t => t.scenario) = [.str ""] ∧
    (compile_threat_model c3Batch emptyArch).threat_model.length = 1 := by
  unfold compile_threat_model compileBody
  simp only [c3_extract, c3_scored]
  exact ⟨rfl, rfl⟩

/-- C3 (amended): normalization never rejects a raw threat for a missing or
empty scenario: whenever the extraction loop over a threat list succeeds it
returns exactly one `ComponentThreat` per raw record, whose `scenario` is the
record's `Scenario` value defaulted to the empty string — the record is kept
and the rest of the batch is unaffected. -/
theorem c3_amended (tvs : List PyVal) (ctr : ℕ) (out : List ComponentThreat × ℕ)
    (h : extractThreatList tvs ctr = .ok out) :
    out.1.length = tvs.length ∧
    List.Forall₂ (fun tv (t : ComponentThreat) => ∃ kvs, tv = PyVal.vdict kvs ∧
      t.scenario = dictGet kvs "Scenario" (.str "")) tvs out.1 := by
  induction tvs generalizing ctr out with
  | nil =>
    simp only [extractThreatList] at h
    cases h
    exact ⟨rfl, List.Forall₂.nil⟩
  | cons tv rest ih =>
    simp only [extractThreatList] at h
    cases htv : extractOneThreat ctr tv with
    | error e => rw [htv] at h; simp [bind, Except.bind] at h
    | ok t =>
      rw [htv] at h
      cases hrest : extractThreatList rest (ctr + 1) with
      | error e => rw [hrest] at h; simp [bind, Except.bind] at h
      | ok pr =>
        rw [hrest] at h
        simp only [bind, Except.bind, pure, Except.pure] at h
        cases h
        obtain ⟨hlen, hall⟩ := ih (ctr + 1) pr hrest
        refine ⟨by simpa using hlen, ?_⟩
        refine List.Forall₂.cons ?_ hall
        cases tv with
        | vdict kvs =>
          refine ⟨kvs, rfl, ?_⟩
          simp only [extractOneThreat, asDict, bind, Except.bind] at htv
          cases hf : pyFloat (dictGet kvs "risk_score" (.num 5)) with
          | error e => rw [hf] at htv; simp at htv
          | ok q =>
            rw [hf] at htv
            simp only [pure, Except.pure, Except.ok.injEq] at htv
            rw [← htv]
        | str s => simp [extractOneThreat, asDict, bind, Except.bind] at htv
        | num q => simp [extractOneThreat, asDict, bind, Except.bind] at htv
        | vlist xs => simp [extractOneThreat, asDict, bind, Except.bind] at htv
        | pynone => simp [extractOneThreat, asDict, bind, Except.bind] at htv

/-- C3 (witness for the amended theorem). -/
theorem c3_amended_witness :
    extractThreatList [.vdict [("Threat Type", PyVal.str "Spoofing")]] 1 =
      .ok ([c3T], 2) ∧
    ([c3T].length = [PyVal.vdict [("Threat Type", PyVal.str "Spoofing")]].length ∧
     List.Forall₂ (fun tv (t : ComponentThreat) => ∃ kvs, tv = PyVal.vdict kvs ∧
       t.scenario = dictGet kvs "Scenario" (.str ""))
       [PyVal.vdict [("Threat Type", PyVal.str "Spoofing")]] [c3T]) :=
  ⟨rfl, c3_amended _ 1 ([c3T], 2) rfl⟩

/-- The value of a Python set built by successive `add`s of hashable values:
insertion-ordered, duplicate-free (with respect to Python `==`). -/
def setList (acc : List PyVal) : List PyVal → List PyVal
  | [] => acc
  | x :: xs => setList (if acc.any (fun y => pyEq y x) then acc else acc ++ [x]) xs

/-- Reading back a key just written. -/
theorem dictGet_dictSet_self (kvs : List (String × PyVal)) (k : String)
    (v d : PyVal) : dictGet (dictSet kvs k v) k d = v := by
  induction kvs with
  | nil => simp [dictSet, dictGet, List.find?_cons]
  | cons kv rest ih =>
    obtain ⟨k', v'⟩ := kv
    by_cases h : k' = k
    · simp [dictSet, h, dictGet, List.find?_cons]
    · simpa [dictSet, h, dictGet, List.find?_cons, beq_eq_false_iff_ne.mpr h]
        using ih

/-- Writing one key leaves the others untouched. -/
theorem dictGet_dictSet_ne (kvs : List (String × PyVal)) (k k' : String)
    (v d : PyVal) (h : k ≠ k') :
    dictGet (dictSet kvs k v) k' d = dictGet kvs k' d := by
  induction kvs with
  | nil => simp [dictSet, dictGet, List.find?_cons, beq_eq_false_iff_ne.mpr h]
  | cons kv rest ih =>
    obtain ⟨k'', v''⟩ := kv
    by_cases h2 : k'' = k
    · subst h2
      simp [dictSet, dictGet, List.find?_cons, beq_eq_false_iff_ne.mpr h]
    · by_cases h3 : k'' = k'
      · subst h3
        simp [dictSet, h2, dictGet, List.find?_cons]
      · simpa [dictSet, h2, dictGet, List.find?_cons,
          beq_eq_false_iff_ne.mpr h3] using ih

/-- Folding `set.add` over hashable values never raises and builds
`setList`. -/
theorem foldlM_setAdd (xs : List PyVal) (acc : List PyVal)
    (h : xs.all pyHashable = true) :
    xs.foldlM setAdd acc = .ok (setList acc xs) := by
  induction xs generalizing acc with
  | nil => rfl
  | cons x rest ih =>
    simp only [List.all_cons, Bool.and_eq_true] at h
    have hs : setAdd acc x =
        .ok (if acc.any (fun y => pyEq y x) then acc else acc ++ [x]) := by
      simp only [setAdd, h.1, Bool.not_true, Bool.false_eq_true, if_false]
      by_cases hany : acc.any (fun y => pyEq y x) <;> simp [hany]
    simp only [List.foldlM, hs, bind, Except.bind, setList]
    exact ih _ h.2

/-- Merging a pair of duplicate threat dicts: the exact record
`_deduplicate_threats` produces — `source` concatenated, only
`affected_components` unioned, `criticality_score` maxed; `attack_vectors`
and `mitigations` (and every other key) keep the first record's values. -/
theorem dedupMerge_eq (t1 t2 : List (String × PyVal)) (a1 a2 : List PyVal)
    (q1 q2 : ℚ)
    (ha1 : dictGet t1 "affected_components" (.vlist []) = .vlist a1)
    (ha2 : dictGet t2 "affected_components" (.vlist []) = .vlist a2)
    (hh1 : a1.all pyHashable = true) (hh2 : a2.all pyHashable = true)
    (hh3 : (setList [] a2).all pyHashable = true)
    (hc1 : dictGet t1 "criticality_score" (.num 0) = .num q1)
    (hc2 : dictGet t2 "criticality_score" (.num 0) = .num q2) :
    dedupMerge t1 t2 = .ok
      (dictSet (dictSet (dictSet t1 "source"
          (.str (pyRender (dictGet t1 "source" (.str "")) ++ " + " ++
                 pyRender (dictGet t2 "source" (.str "")))))
        "affected_components" (.vlist (setList (setList [] a1) (setList [] a2))))
        "criticality_score" (.num (max q1 q2))) := by
  have e1 : dictGet (dictSet t1 "source"
      (.str (pyRender (dictGet t1 "source" (.str "")) ++ " + " ++
             pyRender (dictGet t2 "source" (.str "")))))
      "affected_components" (.vlist []) = .vlist a1 := by
    rw [dictGet_dictSet_ne _ _ _ _ _ (by decide), ha1]
  have e2 : dictGet (dictSet (dictSet t1 "source"
      (.str (pyRender (dictGet t1 "source" (.str "")) ++ " + " ++
             pyRender (dictGet t2 "source" (.str "")))))
      "affected_components" (.vlist (setList (setList [] a1) (setList [] a2))))
      "criticality_score" (.num 0) = .num q1 := by
    rw [dictGet_dictSet_ne _ _ _ _ _ (by decide),
      dictGet_dictSet_ne _ _ _ _ _ (by decide), hc1]
  simp only [dedupMerge, e1, pySet, pyIter, bind, Except.bind,
    foldlM_setAdd _ _ hh1, ha2, foldlM_setAdd _ _ hh2,
    foldlM_setAdd _ _ hh3, e2, hc2, pyFloat, pure, Except.pure]

/-- The pair trace of `_deduplicate_threats`: two records whose scenarios
normalize to the same key collapse into the single merged first record. -/
theorem dedup_pair (t1 t2 : List (String × PyVal)) (s1 s2 : String)
    (a1 a2 : List PyVal) (q1 q2 : ℚ)
    (h1 : dictGet t1 "Scenario" (.str "") = .str s1)
    (h2 : dictGet t2 "Scenario" (.str "") = .str s2)
    (hk : normKey s1 = normKey s2)
    (ha1 : dictGet t1 "affected_components" (.vlist []) = .vlist a1)
    (ha2 : dictGet t2 "affected_components" (.vlist []) = .vlist a2)
    (hh1 : a1.all pyHashable = true) (hh2 : a2.all pyHashable = true)
    (hh3 : (setList [] a2).all pyHashable = true)
    (hc1 : dictGet t1 "criticality_score" (.num 0) = .num q1)
    (hc2 : dictGet t2 "criticality_score" (.num 0) = .num q2) :
    dedupThreats [.vdict t1, .vdict t2] = .ok
      [dictSet (dictSet (dictSet t1 "source"
          (.str (pyRender (dictGet t1 "source" (.str "")) ++ " + " ++
                 pyRender (dictGet t2 "source" (.str "")))))
        "affected_components" (.vlist (setList (setList [] a1) (setList [] a2))))
        "criticality_score" (.num (max q1 q2))] := by
  have hm := dedupMerge_eq t1 t2 a1 a2 q1 q2 ha1 ha2 hh1 hh2 hh3 hc1 hc2
  simp only [dedupThreats, dedupLoop, asDict, bind, Except.bind, h1, h2, asStr,
    List.find?_cons, List.find?_nil, hk, beq_self_eq_true, List.length_nil,
    List.getD, List.get?, hm, List.set, List.nil_append, Option.getD]

/-- First duplicate record: score 9.0, its own vectors/mitigations. -/
def cT1 : List (String × PyVal) :=
  [("Scenario", .str "Data tampering attack"), ("source", .str "AgentA"),
   ("attack_vectors", .vlist [.str "v1"]), ("mitigations", .vlist [.str "m1"]),
   ("affected_components", .vlist [.str "A"]), ("criticality_score", .num 9)]

/-- Second duplicate record: same word set in the scenario, score 3.0,
different vectors/mitigations. -/
def cT2 : List (String × PyVal) :=
  [("Scenario", .str "attack: Tampering DATA"), ("source", .str "AgentB"),
   ("attack_vectors", .vlist [.str "v2"]), ("mitigations", .vlist [.str "m2"]),
   ("affected_components", .vlist [.str "B"]), ("criticality_score", .num 3)]

/-- C4: two threats whose scenario texts reduce to the same normalized
bag-of-words key (lowercased, `\w+`-tokenized, de-duplicated, sorted) are
collapsed by deduplication into a single threat whose `criticality_score` is
the maximum of the two scores — never an average. -/
theorem c4_dedup_takes_max (t1 t2 : List (String × PyVal)) (s1 s2 : String)
    (a1 a2 : List PyVal) (q1 q2 : ℚ)
    (h1 : dictGet t1 "Scenario" (.str "") = .str s1)
    (h2 : dictGet t2 "Scenario" (.str "") = .str s2)
    (hk : normKey s1 = normKey s2)
    (ha1 : dictGet t1 "affected_components" (.vlist []) = .vlist a1)
    (ha2 : dictGet t2 "affected_components" (.vlist []) = .vlist a2)
    (hh1 : a1.all pyHashable = true) (hh2 : a2.all pyHashable = true)
    (hh3 : (setList [] a2).all pyHashable = true)
    (hc1 : dictGet t1 "criticality_score" (.num 0) = .num q1)
    (hc2 : dictGet t2 "criticality_score" (.num 0) = .num q2) :
    ∃ m, dedupThreats [.vdict t1, .vdict t2] = .ok [m] ∧
      dictGet m "criticality_score" (.num 0) = .num (max q1 q2) :=
  ⟨_, dedup_pair t1 t2 s1 s2 a1 a2 q1 q2 h1 h2 hk ha1 ha2 hh1 hh2 hh3 hc1 hc2,
   dictGet_dictSet_self _ _ _ _⟩

/-- C4 (witness): merging scores 9.0 and 3.0 yields 9.0. -/
theorem c4_dedup_takes_max_witness :
    (∃ m, dedupThreats [.vdict cT1, .vdict cT2] = .ok [m] ∧
      dictGet m "criticality_score" (.num 0) = .num (max 9 3)) ∧
    (max (9 : ℚ) 3) = 9 :=
  ⟨c4_dedup_takes_max cT1 cT2 "Data tampering attack" "attack: Tampering DATA"
      [.str "A"] [.str "B"] 9 3 rfl rfl (by decide) rfl rfl (by decide)
      (by decide) (by decide) rfl rfl,
   by decide⟩

/-- C5 (counterexample): merging the two concrete duplicates keeps only the
first record's `attack_vectors` (`["v1"]`) and `mitigations` (`["m1"]`) —
the second record's `"v2"` and `"m2"` are dropped, not set-unioned — and the
provenance is the plain string concatenation `"AgentA + AgentB"`. -/
theorem c5_counterexample :
    dedupThreats [.vdict cT1, .vdict cT2] = .ok
      [[("Scenario", .str "Data tampering attack"),
        ("source", .str "AgentA + AgentB"),
        ("attack_vectors", .vlist [.str "v1"]),
        ("mitigations", .vlist [.str "m1"]),
        ("affected_components", .vlist [.str "A", .str "B"]),
        ("criticality_score", .num 9)]] := by
  have h := dedup_pair cT1 cT2 "Data tampering attack" "attack: Tampering DATA"
    [.str "A"] [.str "B"] 9 3 rfl rfl (by decide) rfl rfl (by decide)
    (by decide) (by decide) rfl rfl
  rw [h]
  rfl

/-- C5 (amended): on merge only `affected_components` is set-unioned and
`criticality_score` maxed; `source` becomes the f-string concatenation
`"{old} + {new}"`; every other key — `attack_vectors`, `mitigations`, and
any id field — keeps the first-seen record's value unchanged, and the merged
record sits at the first-seen position.  (The helper `_merge_threat_info`,
which would union `attack_vectors`/`cves`/`mitigations`, is never called by
`_deduplicate_threats`.) -/
theorem c5_amended (t1 t2 : List (String × PyVal)) (s1 s2 : String)
    (a1 a2 : List PyVal) (q1 q2 : ℚ)
    (h1 : dictGet t1 "Scenario" (.str "") = .str s1)
    (h2 : dictGet t2 "Scenario" (.str "") = .str s2)
    (hk : normKey s1 = normKey s2)
    (ha1 : dictGet t1 "affected_components" (.vlist []) = .vlist a1)
    (ha2 : dictGet t2 "affected_components" (.vlist []) = .vlist a2)
    (hh1 : a1.all pyHashable = true) (hh2 : a2.all pyHashable = true)
    (hh3 : (setList [] a2).all pyHashable = true)
    (hc1 : dictGet t1 "criticality_score" (.num 0) = .num q1)
    (hc2 : dictGet t2 "criticality_score" (.num 0) = .num q2) :
    dedupThreats [.vdict t1, .vdict t2] = .ok
      [dictSet (dictSet (dictSet t1 "source"
          (.str (pyRender (dictGet t1 "source" (.str "")) ++ " + " ++
                 pyRender (dictGet t2 "source" (.str "")))))
        "affected_components" (.vlist (setList (setList [] a1) (setList [] a2))))
        "criticality_score" (.num (max q1 q2))] ∧
    ∀ k d, k ≠ "source" → k ≠ "affected_components" →
      k ≠ "criticality_score" →
      dictGet (dictSet (dictSet (dictSet t1 "source"
          (.str (pyRender (dictGet t1 "source" (.str "")) ++ " + " ++
                 pyRender (dictGet t2 "source" (.str "")))))
        "affected_components" (.vlist (setList (setList [] a1) (setList [] a2))))
        "criticality_score" (.num (max q1 q2))) k d = dictGet t1 k d := by
  refine ⟨dedup_pair t1 t2 s1 s2 a1 a2 q1 q2 h1 h2 hk ha1 ha2 hh1 hh2 hh3
    hc1 hc2, ?_⟩
  intro k d hks hka hkc
  rw [dictGet_dictSet_ne _ _ _ _ _ (Ne.symm hkc),
    dictGet_dictSet_ne _ _ _ _ _ (Ne.symm hka),
    dictGet_dictSet_ne _ _ _ _ _ (Ne.symm hks)]

/-- C5 (witness for the amended theorem): at the concrete pair the untouched
keys include `attack_vectors` and `mitigations`. -/
theorem c5_amended_witness :
    dedupThreats [.vdict cT1, .vdict cT2] = .ok
      [dictSet (dictSet (dictSet cT1 "source"
          (.str (pyRender (dictGet cT1 "source" (.str "")) ++ " + " ++
                 pyRender (dictGet cT2 "source" (.str "")))))
        "affected_components"
          (.vlist (setList (setList [] [.str "A"]) (setList [] [.str "B"]))))
        "criticality_score" (.num (max 9 3))] :=
  (c5_amended cT1 cT2 "Data tampering attack" "attack: Tampering DATA"
    [.str "A"] [.str "B"] 9 3 rfl rfl (by decide) rfl rfl (by decide)
    (by decide) (by decide) rfl rfl).1

/-- A successfully extracted threat carries the id made from its counter. -/
theorem extractOneThreat_id (ctr : ℕ) (tv : PyVal) (t : ComponentThreat)
    (h : extractOneThreat ctr tv = .ok t) : t.threat_id = threatId ctr := by
  cases tv with
  | vdict kvs =>
    simp only [extractOneThreat, asDict, bind, Except.bind] at h
    cases hf : pyFloat (dictGet kvs "risk_score" (.num 5)) with
    | error e => rw [hf] at h; simp at h
    | ok q =>
      rw [hf] at h
      simp only [pure, Except.pure, Except.ok.injEq] at h
      rw [← h]
  | str s => simp [extractOneThreat, asDict, bind, Except.bind] at h
  | num q => simp [extractOneThreat, asDict, bind, Except.bind] at h
  | vlist xs => simp [extractOneThreat, asDict, bind, Except.bind] at h
  | pynone => simp [extractOneThreat, asDict, bind, Except.bind] at h

/-- Unfolding step for the id ranges. -/
theorem idRange_succ (start n : ℕ) :
    (List.range (n + 1)).map (fun i => threatId (start + i)) =
      threatId start :: (List.range n).map (fun i => threatId (start + 1 + i)) := by
  rw [List.range_succ_eq_map]
  simp only [List.map_cons, List.map_map, Nat.add_zero]
  congr 1
  apply List.map_congr_left
  intro i _
  simp only [Function.comp_apply]
  congr 1
  omega

/-- The inner loop assigns consecutive ids starting at its counter. -/
theorem extractThreatList_ids (tvs : List PyVal) (ctr : ℕ)
    (out : List ComponentThreat × ℕ) (h : extractThreatList tvs ctr = .ok out) :
    out.2 = ctr + out.1.length ∧
    out.1.map (fun t => t.threat_id) =
      (List.range out.1.length).map (fun i => threatId (ctr + i)) := by
  induction tvs generalizing ctr out with
  | nil =>
    simp only [extractThreatList] at h
    cases h
    simp
  | cons tv rest ih =>
    simp only [extractThreatList] at h
    cases htv : extractOneThreat ctr tv with
    | error e => rw [htv] at h; simp [bind, Except.bind] at h
    | ok t =>
      rw [htv] at h
      cases hrest : extractThreatList rest (ctr + 1) with
      | error e => rw [hrest] at h; simp [bind, Except.bind] at h
      | ok pr =>
        rw [hrest] at h
        simp only [bind, Except.bind, pure, Except.pure, Except.ok.injEq] at h
        obtain ⟨hcnt, hmap⟩ := ih (ctr + 1) pr hrest
        cases h
        constructor
        · simp only [List.length_cons, hcnt]
          omega
        · simp only [List.map_cons, List.length_cons, idRange_succ, hmap,
            extractOneThreat_id ctr tv t htv]

/-- Skipped batches change nothing: the loop over the filtered batches (the
truthy, non-compiler ones) is the loop over all of them. -/
theorem extractLoop_filter (batches : List (String × PyVal)) (ctr : ℕ) :
    extractLoop (batches.filter
      (fun b => pyTruthy b.2 && !(b.1 == "ThreatModelCompiler"))) ctr =
      extractLoop batches ctr := by
  induction batches generalizing ctr with
  | nil => rfl
  | cons b rest ih =>
    obtain ⟨name, analysis⟩ := b
    by_cases hp : (pyTruthy analysis && !(name == "ThreatModelCompiler")) = true
    · have hcond : (!pyTruthy analysis || (name == "ThreatModelCompiler")) = false := by
        simp only [Bool.and_eq_true, Bool.not_eq_true'] at hp
        simp [hp.1, hp.2]
      simp only [List.filter_cons, hp, if_true, extractLoop, hcond,
        Bool.false_eq_true, if_false, ih]
    · have hp' : (pyTruthy analysis && !(name == "ThreatModelCompiler")) = false := by
        simpa using hp
      have hcond : (!pyTruthy analysis || (name == "ThreatModelCompiler")) = true := by
        rcases Bool.and_eq_false_iff.mp hp' with h | h
        · simp [h]
        · simp only [Bool.not_eq_false'] at h
          simp [h]
      simp only [List.filter_cons, hp', Bool.false_eq_true, if_false,
        extractLoop, hcond, if_true, ih]

/-- The batch loop assigns consecutive ids starting at its counter. -/
theorem extractLoop_ids (batches : List (String × PyVal)) (ctr : ℕ)
    (ts : List ComponentThreat) (h : extractLoop batches ctr = .ok ts) :
    ts.map (fun t => t.threat_id) =
      (List.range ts.length).map (fun i => threatId (ctr + i)) := by
  induction batches generalizing ctr ts with
  | nil =>
    simp only [extractLoop] at h
    cases h
    simp
  | cons b rest ih =>
    obtain ⟨name, analysis⟩ := b
    simp only [extractLoop] at h
    by_cases hcond : (!pyTruthy analysis || (name == "ThreatModelCompiler")) = true
    · rw [if_pos hcond] at h
      exact ih ctr ts h
    · rw [if_neg (by simpa using hcond)] at h
      cases ha : asDict analysis with
      | error e => rw [ha] at h; simp [bind, Except.bind] at h
      | ok a =>
        rw [ha] at h
        simp only [bind, Except.bind] at h
        cases hi : pyIter (dictGet a "threats" (.vlist [])) with
        | error e => rw [hi] at h; simp at h
        | ok tvs =>
          rw [hi] at h
          simp only at h
          cases hl : extractThreatList tvs ctr with
          | error e => rw [hl] at h; simp at h
          | ok pr =>
            rw [hl] at h
            simp only at h
            cases hm : extractLoop rest pr.2 with
            | error e => rw [hm] at h; simp at h
            | ok more =>
              rw [hm] at h
              simp only [pure, Except.pure, Except.ok.injEq] at h
              obtain ⟨hcnt, hmap1⟩ := extractThreatList_ids tvs ctr pr hl
              have hmap2 := ih pr.2 more hm
              rw [← h]
              rw [List.map_append, hmap1, hmap2, hcnt]
              rw [List.length_append]
              clear * -
              induction pr.1.length generalizing ctr with
              | zero => simp
              | succ n ih2 =>
                have e1 : n + 1 + more.length = (n + more.length) + 1 := by omega
                rw [e1, idRange_succ, idRange_succ]
                simp only [List.cons_append, List.cons.injEq, true_and]
                have hB : (List.range more.length).map
                    (fun i => threatId (ctr + (n + 1) + i)) =
                    (List.range more.length).map
                    (fun i => threatId (ctr + 1 + n + i)) := by
                  apply List.map_congr_left
                  intro i _
                  congr 1
                  omega
                rw [hB]
                exact ih2 (ctr + 1)

/-- C10: an `(agent_name, analysis)` batch whose name is exactly
`"ThreatModelCompiler"`, or whose analysis is falsy, contributes zero threats
regardless of its contents — extraction over the batch list equals extraction
over the filtered list — and the surviving threats receive sequential ids
`THREAT-001`, `THREAT-002`, … across the remaining batches. -/
theorem c10_compiler_batches_skipped (batches : List (String × PyVal)) :
    extract_component_threats batches =
      extract_component_threats (batches.filter
        (fun b => pyTruthy b.2 && !(b.1 == "ThreatModelCompiler"))) ∧
    (extract_component_threats batches).map (fun t => t.threat_id) =
      (List.range (extract_component_threats batches).length).map
        (fun i => threatId (1 + i)) := by
  constructor
  · unfold extract_component_threats
    rw [extractLoop_filter]
  · unfold extract_component_threats
    cases h : extractLoop batches 1 with
    | error e => simp
    | ok ts => simpa using extractLoop_ids batches 1 ts h

mutual

/-- `pyEq` coincides with structural equality on the value model (Python's
`==` restricted to these value types). -/
theorem pyEq_iff : ∀ (a b : PyVal), pyEq a b = true ↔ a = b
  | .str s, b => by cases b <;> simp [pyEq]
  | .num q, b => by cases b <;> simp [pyEq]
  | .pynone, b => by cases b <;> simp [pyEq]
  | .vlist xs, b => by
    cases b <;> simp [pyEq]
    case vlist ys => exact pyEqList_iff xs ys
  | .vdict kvs, b => by
    cases b <;> simp [pyEq]
    case vdict kvs2 => exact pyEqDict_iff kvs kvs2

/-- Elementwise list comparison coincides with list equality. -/
theorem pyEqList_iff : ∀ (xs ys : List PyVal), pyEq.eqList xs ys = true ↔ xs = ys
  | [], ys => by cases ys <;> simp [pyEq.eqList]
  | x :: xs, ys => by
    cases ys with
    | nil => simp [pyEq.eqList]
    | cons y ys =>
      simp [pyEq.eqList, Bool.and_eq_true, pyEq_iff x y, pyEqList_iff xs ys]

/-- Entrywise dict comparison coincides with association-list equality. -/
theorem pyEqDict_iff : ∀ (xs ys : List (String × PyVal)),
    pyEq.eqDict xs ys = true ↔ xs = ys
  | [], ys => by cases ys <;> simp [pyEq.eqDict]
  | kv :: xs, ys => by
    obtain ⟨k1, v1⟩ := kv
    cases ys with
    | nil => simp [pyEq.eqDict]
    | cons kv2 ys =>
      obtain ⟨k2, v2⟩ := kv2
      simp [pyEq.eqDict, Bool.and_eq_true, pyEq_iff v1 v2, pyEqDict_iff xs ys,
        and_assoc]

end


/-- `pyEq` at equal values. -/
instance : DecidableEq PyVal := fun a b => decidable_of_iff _ (pyEq_iff a b)

theorem pyEq_self (a : PyVal) : pyEq a a = true := (pyEq_iff a a).mpr rfl

/-- `pyEq` at distinct values. -/
theorem pyEq_ne {a b : PyVal} (h : a ≠ b) : pyEq a b = false := by
  by_contra hc
  exact h ((pyEq_iff a b).mp (by revert hc; cases pyEq a b <;> simp))

/-- Lookup in the rollup dict. -/
def riskLookup (m : List (PyVal × ComponentRisk)) (k : PyVal) :
    Option ComponentRisk :=
  (m.find? (fun kv => pyEq kv.fst k)).map (fun kv => kv.snd)

/-- The per-threat update applied to a rollup entry. -/
def riskFold (r : ComponentRisk) (t : ComponentThreat) : ComponentRisk :=
  { highest_criticality := max r.highest_criticality t.criticality_score,
    threat_count := r.threat_count + 1,
    threat_types := typeAdd r.threat_types t.threat_type }

/-- A fresh rollup entry before its first update. -/
def risk0 : ComponentRisk :=
  { highest_criticality := 0, threat_count := 0, threat_types := [] }

/-- The intended value of one rollup entry after processing `ts` on top of a
previous entry `r0`. -/
def riskSpec (ts : List ComponentThreat) (k : PyVal) (r0 : Option ComponentRisk) :
    Option ComponentRisk :=
  match ts.filter (fun t => pyEq t.component_name k), r0 with
  | [], r0 => r0
  | l, r0 => some (l.foldl riskFold (r0.getD risk0))

/-- `riskSpec` on an existing entry is a plain fold. -/
theorem riskSpec_some (ts : List ComponentThreat) (k : PyVal) (r : ComponentRisk) :
    riskSpec ts k (some r) =
      some ((ts.filter (fun t => pyEq t.component_name k)).foldl riskFold r) := by
  unfold riskSpec
  cases ts.filter (fun t => pyEq t.component_name k) <;> simp

/-- One `riskAdd` step, seen through `riskLookup`. -/
theorem riskAddGo_lookup (t : ComponentThreat) (m : List (PyVal × ComponentRisk))
    (k : PyVal) :
    riskLookup (riskAdd.go t m) k =
      if t.component_name = k then
        some (riskFold ((riskLookup m k).getD risk0) t)
      else riskLookup m k := by
  induction m with
  | nil =>
    by_cases h : t.component_name = k
    · subst h
      simp [riskAdd.go, riskLookup, List.find?_cons, pyEq_self, riskFold,
        risk0, typeAdd]
    · simp [riskAdd.go, riskLookup, List.find?_cons, pyEq_ne h, h]
  | cons kv rest ih =>
    obtain ⟨k', r'⟩ := kv
    by_cases hq : t.component_name = k
    · by_cases h1 : k' = t.component_name
      · have e1 : pyEq k' t.component_name = true := (pyEq_iff _ _).mpr h1
        have e2 : pyEq k' k = true := (pyEq_iff _ _).mpr (h1.trans hq)
        simp [riskAdd.go, e1, riskLookup, List.find?_cons, e2, hq, riskFold]
      · have e1 : pyEq k' t.component_name = false := pyEq_ne h1
        have e2 : pyEq k' k = false := pyEq_ne (fun h => h1 (h.trans hq.symm))
        simp only [riskAdd.go, e1, Bool.false_eq_true, if_false]
        simp only [riskLookup, List.find?_cons, e2]
        simpa [hq, riskLookup] using ih
    · by_cases h1 : k' = t.component_name
      · have e1 : pyEq k' t.component_name = true := (pyEq_iff _ _).mpr h1
        have e2 : pyEq k' k = false := pyEq_ne (fun h => hq (h1.symm.trans h))
        simp only [riskAdd.go, e1, if_true]
        simp [riskLookup, List.find?_cons, e2, hq]
      · have e1 : pyEq k' t.component_name = false := pyEq_ne h1
        simp only [riskAdd.go, e1, Bool.false_eq_true, if_false]
        by_cases h2 : k' = k
        · have e2 : pyEq k' k = true := (pyEq_iff _ _).mpr h2
          simp [riskLookup, List.find?_cons, e2, hq]
        · have e2 : pyEq k' k = false := pyEq_ne h2
          simp only [riskLookup, List.find?_cons, e2]
          simpa [hq, riskLookup] using ih


/-- The rollup loop, seen through `riskLookup` for every key. -/
theorem riskGo_lookup (ts : List ComponentThreat)
    (m : List (PyVal × ComponentRisk))
    (hn : ts.all (fun t => pyHashable t.component_name) = true)
    (ht : ts.all (fun t => pyHashable t.threat_type) = true) :
    ∃ m', calculateComponentRiskLevels.go ts m = .ok m' ∧
      ∀ k, riskLookup m' k = riskSpec ts k (riskLookup m k) := by
  induction ts generalizing m with
  | nil => exact ⟨m, rfl, fun k => by simp [riskSpec]⟩
  | cons t rest ih =>
    simp only [List.all_cons, Bool.and_eq_true] at hn ht
    obtain ⟨m', hgo, hspec⟩ := ih (riskAdd.go t m) hn.2 ht.2
    refine ⟨m', ?_, ?_⟩
    · simp only [calculateComponentRiskLevels.go, riskAdd, hn.1, ht.1,
        Bool.not_true, Bool.false_or, Bool.false_eq_true, if_false, bind,
        Except.bind]
      exact hgo
    · intro k
      rw [hspec k, riskAddGo_lookup]
      by_cases hq : t.component_name = k
      · have e1 : pyEq t.component_name k = true := (pyEq_iff _ _).mpr hq
        rw [if_pos hq, riskSpec_some]
        unfold riskSpec
        simp only [List.filter_cons, e1, if_true]
        cases hf : rest.filter (fun t => pyEq t.component_name k) <;>
          simp [List.foldl_cons]
      · have e1 : pyEq t.component_name k = false := pyEq_ne hq
        rw [if_neg hq]
        unfold riskSpec
        simp only [List.filter_cons, e1, Bool.false_eq_true, if_false]

/-- Projections of the entry fold: running maximum and count. -/
theorem foldl_riskFold_proj (l : List ComponentThreat) (r : ComponentRisk) :
    (l.foldl riskFold r).highest_criticality =
      (l.map (fun t => t.criticality_score)).foldl max r.highest_criticality ∧
    (l.foldl riskFold r).threat_count = r.threat_count + l.length := by
  induction l generalizing r with
  | nil => simp
  | cons t rest ih =>
    simp only [List.foldl_cons, List.map_cons, List.length_cons]
    obtain ⟨h1, h2⟩ := ih (riskFold r t)
    exact ⟨h1, by rw [h2]; simp [riskFold]; omega⟩

/-- C8 (amended): the per-component rollup of
`_calculate_component_risk_levels` is keyed by the primary `component_name`
only — `affected_components` play no part — and each entry records the
numeric maximum (seeded with 0.0), the threat count and the threat types of
exactly the threats naming that component as primary; no severity-band
string is stored. -/
theorem c8_amended (ts : List ComponentThreat)
    (hn : ts.all (fun t => pyHashable t.component_name) = true)
    (ht : ts.all (fun t => pyHashable t.threat_type) = true) :
    ∃ m, calculateComponentRiskLevels ts = .ok m ∧
      (∀ k, riskLookup m k = riskSpec ts k Option.none) ∧
      (∀ k r, riskLookup m k = some r →
        r.highest_criticality =
          ((ts.filter (fun t => pyEq t.component_name k)).map
            (fun t => t.criticality_score)).foldl max 0 ∧
        r.threat_count =
          (ts.filter (fun t => pyEq t.component_name k)).length) := by
  obtain ⟨m, hgo, hspec⟩ := riskGo_lookup ts [] hn ht
  refine ⟨m, hgo, fun k => by simpa [riskLookup] using hspec k, ?_⟩
  intro k r hr
  rw [hspec k] at hr
  simp only [riskLookup, List.find?_nil, Option.map_none', riskSpec] at hr
  revert hr
  cases hf : ts.filter (fun t => pyEq t.component_name k) with
  | nil => intro hr; cases hr
  | cons t rest =>
    intro hr
    have := foldl_riskFold_proj (t :: rest) risk0
    cases hr
    rw [← hf]
    rw [hf]
    simpa [risk0] using this

/-- A primary-"A" threat with score 3. -/
def c8TA : ComponentThreat :=
  { threat_id := "THREAT-001", threat_type := .str "Tampering",
    component_name := .str "A", component_type := .str "backend",
    scenario := .str "x", attack_vectors := .vlist [],
    affected_components := .vlist [], impact := .str "", base_score := 3,
    criticality_score := 3, mitigations := [] }

/-- A primary-"B" threat with score 9 that lists "A" as affected. -/
def c8TB : ComponentThreat :=
  { threat_id := "THREAT-002", threat_type := .str "Spoofing",
    component_name := .str "B", component_type := .str "backend",
    scenario := .str "y", attack_vectors := .vlist [],
    affected_components := .vlist [.str "A"], impact := .str "",
    base_score := 9, criticality_score := 9, mitigations := [] }

/-- C8 (counterexample): component "A" is primary for a score-3 threat and
affected by a score-9 threat, so the claim demands band(9) = CRITICAL for
"A"; but the rollup's entry for "A" records only `highest_criticality` 3.0
(band LOW) — affected components are not consulted, and no band string is
stored in the rollup at all. -/
theorem c8_counterexample :
    calculateComponentRiskLevels [c8TA, c8TB] = .ok
      [(.str "A", { highest_criticality := 3, threat_count := 1,
                    threat_types := [.str "Tampering"] }),
       (.str "B", { highest_criticality := 9, threat_count := 1,
                    threat_types := [.str "Spoofing"] })] ∧
    getCriticalityLevel 3 = "LOW" ∧
    getCriticalityLevel (max 3 9) = "CRITICAL" := by
  refine ⟨rfl, ?_, ?_⟩ <;>
    norm_num [getCriticalityLevel, CriticalityLevel.name]

/-- C8 (witness for the amended theorem). -/
theorem c8_amended_witness :
    ∃ m, calculateComponentRiskLevels [c8TA, c8TB] = .ok m ∧
      (∀ k, riskLookup m k = riskSpec [c8TA, c8TB] k Option.none) ∧
      (∀ k r, riskLookup m k = some r →
        r.highest_criticality =
          (([c8TA, c8TB].filter (fun t => pyEq t.component_name k)).map
            (fun t => t.criticality_score)).foldl max 0 ∧
        r.threat_count =
          ([c8TA, c8TB].filter (fun t => pyEq t.component_name k)).length) :=
  c8_amended [c8TA, c8TB] (by decide) (by decide)

/-- A batch whose threat has a number where `affected_components` should be:
extraction and scoring pass it through, and `_generate_threat_mapping` then
raises `TypeError` trying to iterate it — reaching the outer handler. -/
def c9Batch : List (String × PyVal) :=
  [("SpoofingExpert", .vdict [("threats", .vlist [.vdict
    [("Scenario", .str "s"), ("affected_components", .num 3)]])])]

/-- The extracted form of the adversarial record. -/
def c9T : ComponentThreat :=
  { threat_id := "THREAT-001", threat_type := .str "Unknown",
    component_name := .str "System", component_type := .str "Unknown",
    scenario := .str "s", attack_vectors := .vlist [],
    affected_components := .num 3, impact := .str "", base_score := 5,
    criticality_score := 0, mitigations := [] }

/-- Extraction accepts the adversarial record. -/
theorem c9_extract : extract_component_threats c9Batch = [c9T] := rfl

/-- C9: `compile_threat_model` is total — for every input it either returns
the successfully compiled model or, when some stage raises, the empty model
of `_get_empty_model`; and the error branch is reachable: the concrete
adversarial batch (non-iterable `affected_components`) makes the threat
mapping raise `TypeError`, and the compiler returns the empty model. -/
theorem c9_compile_never_raises :
    (∀ batches arch,
      (∃ m, compileBody batches arch = .ok m ∧
        compile_threat_model batches arch = m) ∨
      (∃ e, compileBody batches arch = .error e ∧
        compile_threat_model batches arch = emptyModel)) ∧
    compileBody c9Batch emptyArch = .error .typeError ∧
    compile_threat_model c9Batch emptyArch = emptyModel := by
  have hsc := scoreThreat_emptyArch c9T "Unknown" rfl
  have h2 : compileBody c9Batch emptyArch = .error .typeError := by
    unfold compileBody
    simp only [c9_extract, calculateCriticalityScores, scoreLoop, hsc,
      stableSort, List.foldl, stableInsert]
    rfl
  refine ⟨?_, h2, by unfold compile_threat_model; rw [h2]⟩
  intro batches arch
  cases h : compileBody batches arch with
  | ok m => exact Or.inl ⟨m, rfl, by unfold compile_threat_model; rw [h]⟩
  | error e => exact Or.inr ⟨e, rfl, by unfold compile_threat_model; rw [h]⟩

/-- Bounding a running maximum. -/
theorem foldl_max_le_iff (l : List ℚ) (i x : ℚ) :
    l.foldl max i ≤ x ↔ i ≤ x ∧ ∀ q ∈ l, q ≤ x := by
  induction l generalizing i with
  | nil => simp
  | cons a l ih =>
    simp only [List.foldl_cons, ih, max_le_iff, List.mem_cons]
    constructor
    · rintro ⟨⟨h1, h2⟩, h3⟩
      exact ⟨h1, fun q hq => hq.elim (fun h => h ▸ h2) (h3 q)⟩
    · rintro ⟨h1, h2⟩
      exact ⟨⟨h1, h2 a (Or.inl rfl)⟩, fun q hq => h2 q (Or.inr hq)⟩

/-- The initial value bounds the running maximum from below. -/
theorem le_foldl_max (l : List ℚ) (i : ℚ) : i ≤ l.foldl max i :=
  ((foldl_max_le_iff l i _).mp le_rfl).1

/-- Every element bounds the running maximum from below. -/
theorem mem_le_foldl_max (l : List ℚ) (i : ℚ) {q : ℚ} (hq : q ∈ l) :
    q ≤ l.foldl max i :=
  ((foldl_max_le_iff l i _).mp le_rfl).2 q hq

/-- The path criticality of an edge with respect to a threat list: the
maximum criticality over the threats naming either endpoint as their primary
component, defaulting to 0.0. -/
def pathCriticality (ts : List ComponentThreat) (source target : PyVal) : ℚ :=
  ((ts.filter (fun t => pyEq t.component_name source ||
      pyEq t.component_name target)).map
    (fun t => t.criticality_score)).foldl max 0

/-- The two-group maximum computed by `_identify_critical_paths` equals the
single filtered maximum over threats naming either endpoint. -/
theorem pathCrit_eq (ts : List ComponentThreat) (src tgt : PyVal) :
    (((ts.filter (fun (t : ComponentThreat) => pyEq t.component_name src)).map
        (fun (t : ComponentThreat) => t.criticality_score)) ++
     ((ts.filter (fun (t : ComponentThreat) => pyEq t.component_name tgt)).map
        (fun (t : ComponentThreat) => t.criticality_score)) ++ [0]).foldl max 0 =
    pathCriticality ts src tgt := by
  unfold pathCriticality
  apply le_antisymm
  · rw [foldl_max_le_iff]
    refine ⟨le_foldl_max _ _, ?_⟩
    intro q hq
    simp only [List.mem_append, List.mem_map, List.mem_filter,
      List.mem_singleton] at hq
    rcases hq with (⟨t, ⟨ht, hp⟩, rfl⟩ | ⟨t, ⟨ht, hp⟩, rfl⟩) | rfl
    · refine mem_le_foldl_max _ _ ?_
      simp only [List.mem_map, List.mem_filter]
      exact ⟨t, ⟨ht, by simp [hp]⟩, rfl⟩
    · refine mem_le_foldl_max _ _ ?_
      simp only [List.mem_map, List.mem_filter]
      exact ⟨t, ⟨ht, by simp [hp]⟩, rfl⟩
    · exact le_foldl_max _ _
  · rw [foldl_max_le_iff]
    refine ⟨le_foldl_max _ _, ?_⟩
    intro q hq
    simp only [List.mem_map, List.mem_filter, Bool.or_eq_true] at hq
    obtain ⟨t, ⟨ht, hp⟩, rfl⟩ := hq
    rcases hp with hp | hp
    · refine mem_le_foldl_max _ _ ?_
      simp only [List.mem_append, List.mem_map, List.mem_filter]
      exact Or.inl (Or.inl ⟨t, ⟨ht, hp⟩, rfl⟩)
    · refine mem_le_foldl_max _ _ ?_
      simp only [List.mem_append, List.mem_map, List.mem_filter]
      exact Or.inl (Or.inr ⟨t, ⟨ht, hp⟩, rfl⟩)

/-- Lookup in the threat grouping, with the `.get(k, [])` default. -/
def groupLookup (m : List (PyVal × List ComponentThreat)) (k : PyVal) :
    List ComponentThreat :=
  ((m.find? (fun kv => pyEq kv.fst k)).map (fun kv => kv.snd)).getD []

/-- One `groupAdd` step, seen through `groupLookup`. -/
theorem groupAddGo_lookup (t : ComponentThreat)
    (m : List (PyVal × List ComponentThreat)) (k : PyVal) :
    groupLookup (groupAdd.go t m) k =
      if t.component_name = k then groupLookup m k ++ [t]
      else groupLookup m k := by
  induction m with
  | nil =>
    by_cases h : t.component_name = k
    · have e : pyEq t.component_name k = true := (pyEq_iff _ _).mpr h
      simp [groupAdd.go, groupLookup, List.find?_cons, e, h, pyEq_self]
    · simp [groupAdd.go, groupLookup, List.find?_cons, pyEq_ne h, h]
  | cons kv rest ih =>
    obtain ⟨k', g⟩ := kv
    by_cases hq : t.component_name = k
    · by_cases h1 : k' = t.component_name
      · have e1 : pyEq k' t.component_name = true := (pyEq_iff _ _).mpr h1
        have e2 : pyEq k' k = true := (pyEq_iff _ _).mpr (h1.trans hq)
        simp [groupAdd.go, e1, groupLookup, List.find?_cons, e2, hq]
      · have e1 : pyEq k' t.component_name = false := pyEq_ne h1
        have e2 : pyEq k' k = false := pyEq_ne (fun h => h1 (h.trans hq.symm))
        simp only [groupAdd.go, e1, Bool.false_eq_true, if_false]
        simp only [groupLookup, List.find?_cons, e2]
        simpa [hq, groupLookup] using ih
    · by_cases h1 : k' = t.component_name
      · have e1 : pyEq k' t.component_name = true := (pyEq_iff _ _).mpr h1
        have e2 : pyEq k' k = false := pyEq_ne (fun h => hq (h1.symm.trans h))
        simp only [groupAdd.go, e1, if_true]
        simp [groupLookup, List.find?_cons, e2, hq]
      · have e1 : pyEq k' t.component_name = false := pyEq_ne h1
        simp only [groupAdd.go, e1, Bool.false_eq_true, if_false]
        by_cases h2 : k' = k
        · have e2 : pyEq k' k = true := (pyEq_iff _ _).mpr h2
          simp [groupLookup, List.find?_cons, e2, hq]
        · have e2 : pyEq k' k = false := pyEq_ne h2
          simp only [groupLookup, List.find?_cons, e2]
          simpa [hq, groupLookup] using ih

/-- The grouping loop, seen through `groupLookup` for every key. -/
theorem groupGo_lookup (ts : List ComponentThreat)
    (m : List (PyVal × List ComponentThreat))
    (hn : ts.all (fun t => pyHashable t.component_name) = true) :
    ∃ m', groupThreats.go ts m = .ok m' ∧
      ∀ k, groupLookup m' k =
        groupLookup m k ++ ts.filter (fun t => pyEq t.component_name k) := by
  induction ts generalizing m with
  | nil => exact ⟨m, rfl, fun k => by simp⟩
  | cons t rest ih =>
    simp only [List.all_cons, Bool.and_eq_true] at hn
    obtain ⟨m', hgo, hspec⟩ := ih (groupAdd.go t m) hn.2
    refine ⟨m', ?_, ?_⟩
    · simp only [groupThreats.go, groupAdd, hn.1, Bool.not_true,
        Bool.false_eq_true, if_false, bind, Except.bind]
      exact hgo
    · intro k
      rw [hspec k, groupAddGo_lookup]
      by_cases hq : t.component_name = k
      · have e : pyEq t.component_name k = true := (pyEq_iff _ _).mpr hq
        simp [List.filter_cons, e, hq, List.append_assoc, pyEq_self]
      · have e : pyEq t.component_name k = false := pyEq_ne hq
        simp [List.filter_cons, e, hq]

/-- `groupGet` on a hashable key is the pure lookup. -/
theorem groupGet_eq (m : List (PyVal × List ComponentThreat)) (k : PyVal)
    (h : pyHashable k = true) : groupGet m k = .ok (groupLookup m k) := by
  simp only [groupGet, h, Bool.not_true, Bool.false_eq_true, if_false,
    groupLookup]
  cases m.find? (fun kv => pyEq kv.fst k) <;> rfl

/-- The finding the edge loop emits for one relationship dict, phrased
against the threat list: present exactly when the edge's path criticality
reaches 7.0. -/
def edgeSpec (ts : List ComponentThreat) (rv : PyVal) : Option CriticalPath :=
  match rv with
  | .vdict r =>
    let source := dictGet r "source" (.str "")
    let target := dictGet r "target" (.str "")
    if pathCriticality ts source target ≥ 7 then
      some { path := [source, target],
             risk_level := getCriticalityLevel (pathCriticality ts source target),
             description := "Critical path between " ++ pyRender source ++
               " and " ++ pyRender target ++ " with risk score " ++
               formatFixed1 (pathCriticality ts source target) }
    else Option.none
  | _ => Option.none

/-- `edgeFinding` against a faithful grouping computes `edgeSpec`. -/
theorem edgeFinding_spec (ts : List ComponentThreat)
    (grouped : List (PyVal × List ComponentThreat)) (r : List (String × PyVal))
    (hg : ∀ k, groupLookup grouped k =
      ts.filter (fun t => pyEq t.component_name k))
    (hs : pyHashable (dictGet r "source" (.str "")) = true)
    (ht : pyHashable (dictGet r "target" (.str "")) = true) :
    edgeFinding grouped (.vdict r) = .ok (edgeSpec ts (.vdict r)) := by
  unfold edgeFinding edgeSpec
  simp only [asDict, bind, Except.bind, groupGet_eq _ _ hs, groupGet_eq _ _ ht,
    hg, pathCrit_eq, pure, Except.pure]
  split <;> rfl

/-- The edge loop over well-formed relationship dicts is the `filterMap` of
`edgeSpec`. -/
theorem edgeLoop_spec (ts : List ComponentThreat)
    (grouped : List (PyVal × List ComponentThreat)) (rels : List PyVal)
    (hg : ∀ k, groupLookup grouped k =
      ts.filter (fun t => pyEq t.component_name k))
    (hr : ∀ rv ∈ rels, ∃ r, rv = PyVal.vdict r ∧
      pyHashable (dictGet r "source" (.str "")) = true ∧
      pyHashable (dictGet r "target" (.str "")) = true) :
    edgeLoop grouped rels = .ok (rels.filterMap (edgeSpec ts)) := by
  induction rels with
  | nil => rfl
  | cons rv rest ih =>
    obtain ⟨r, rfl, hs, htg⟩ := hr rv (List.mem_cons_self _ _)
    have hrest := ih (fun rv h => hr rv (List.mem_cons_of_mem _ h))
    simp only [edgeLoop, edgeFinding_spec ts grouped r hg hs htg, bind,
      Except.bind, hrest, List.filterMap_cons]
    cases edgeSpec ts (.vdict r) <;> simp [pure, Except.pure]

/-- `_identify_critical_paths` on well-formed input is the `filterMap` of
`edgeSpec` over the relationship list. -/
theorem identifyCriticalPaths_eq (ts : List ComponentThreat)
    (g : List (String × PyVal)) (rels : List PyVal)
    (hrel : dictGet g "relationships" (.vlist []) = .vlist rels)
    (hn : ts.all (fun t => pyHashable t.component_name) = true)
    (hr : ∀ rv ∈ rels, ∃ r, rv = PyVal.vdict r ∧
      pyHashable (dictGet r "source" (.str "")) = true ∧
      pyHashable (dictGet r "target" (.str "")) = true) :
    identifyCriticalPaths ts (.vdict g) = rels.filterMap (edgeSpec ts) := by
  obtain ⟨m', hgo, hspec⟩ := groupGo_lookup ts [] hn
  have hg : ∀ k, groupLookup m' k =
      ts.filter (fun t => pyEq t.component_name k) := by
    intro k
    simpa [groupLookup] using hspec k
  unfold identifyCriticalPaths criticalPathsBody groupThreats
  simp only [asDict, bind, Except.bind, hrel, pyIter, hgo,
    edgeLoop_spec ts m' rels hg hr]

/-- The single-edge architecture `A → B` used for the boundary checks. -/
def c7Arch : PyVal := .vdict [("components", .vlist []),
  ("relationships", .vlist [.vdict [("source", .str "A"), ("target", .str "B")]])]

/-- A threat on component "A" with the given criticality score. -/
def c7T (q : ℚ) : ComponentThreat :=
  { threat_id := "THREAT-001", threat_type := .str "Spoofing",
    component_name := .str "A", component_type := .str "backend",
    scenario := .str "x", attack_vectors := .vlist [],
    affected_components := .vlist [], impact := .str "", base_score := q,
    criticality_score := q, mitigations := [] }

/-- C7: for every relationship edge, `_identify_critical_paths` computes the
path criticality as the maximum criticality over the threats whose
`component_name` is the source or target (0.0 default) and emits a finding
exactly when it reaches 7.0, with the band function's risk level and the
templated description; at the boundary, a 7.00-score edge is reported (as
`HIGH`, score rendered `7.0`) and a 6.99-score edge is not. -/
theorem c7_critical_paths :
    (∀ (ts : List ComponentThreat) (g : List (String × PyVal)) (rels : List PyVal),
      dictGet g "relationships" (.vlist []) = .vlist rels →
      ts.all (fun t => pyHashable t.component_name) = true →
      (∀ rv ∈ rels, ∃ r, rv = PyVal.vdict r ∧
        pyHashable (dictGet r "source" (.str "")) = true ∧
        pyHashable (dictGet r "target" (.str "")) = true) →
      identifyCriticalPaths ts (.vdict g) = rels.filterMap (edgeSpec ts)) ∧
    (∀ ts (r : List (String × PyVal)),
      (edgeSpec ts (PyVal.vdict r)).isSome = true ↔
        7 ≤ pathCriticality ts (dictGet r "source" (.str ""))
          (dictGet r "target" (.str ""))) ∧
    (∀ ts (r : List (String × PyVal)) f, edgeSpec ts (PyVal.vdict r) = some f →
      f.path = [dictGet r "source" (.str ""), dictGet r "target" (.str "")] ∧
      f.risk_level = getCriticalityLevel (pathCriticality ts
        (dictGet r "source" (.str "")) (dictGet r "target" (.str ""))) ∧
      f.description = "Critical path between " ++
        pyRender (dictGet r "source" (.str "")) ++ " and " ++
        pyRender (dictGet r "target" (.str "")) ++ " with risk score " ++
        formatFixed1 (pathCriticality ts (dictGet r "source" (.str ""))
          (dictGet r "target" (.str "")))) ∧
    identifyCriticalPaths [c7T 7] c7Arch =
      [{ path := [.str "A", .str "B"], risk_level := "HIGH",
         description := "Critical path between A and B with risk score 7.0" }] ∧
    identifyCriticalPaths [c7T (699/100)] c7Arch = [] := by
  have hmain := identifyCriticalPaths_eq
  refine ⟨hmain, ?_, ?_, ?_, ?_⟩
  · intro ts r
    unfold edgeSpec
    by_cases h : 7 ≤ pathCriticality ts (dictGet r "source" (.str ""))
        (dictGet r "target" (.str ""))
    · simp [h, ge_iff_le]
    · simp [h, ge_iff_le]
  · intro ts r f hf
    unfold edgeSpec at hf
    by_cases h : 7 ≤ pathCriticality ts (dictGet r "source" (.str ""))
        (dictGet r "target" (.str ""))
    · simp only [ge_iff_le, h, if_true, Option.some.injEq] at hf
      rw [← hf]
      exact ⟨rfl, rfl, rfl⟩
    · simp [ge_iff_le, h] at hf
  · have h1 := hmain [c7T 7]
      [("components", .vlist []),
       ("relationships", .vlist [.vdict [("source", .str "A"), ("target", .str "B")]])]
      [.vdict [("source", .str "A"), ("target", .str "B")]] rfl (by decide)
      (by intro rv h
          rcases List.mem_singleton.mp h with rfl
          exact ⟨_, rfl, by decide, by decide⟩)
    rw [show c7Arch = PyVal.vdict
      [("components", .vlist []),
       ("relationships", .vlist [.vdict [("source", .str "A"), ("target", .str "B")]])]
      from rfl, h1]
    have hpc : pathCriticality [c7T 7] (PyVal.str "A") (PyVal.str "B") = 7 := by
      unfold pathCriticality
      rfl
    have h70 : roundHalfEven ((7 : ℚ) * 10) = 70 := by
      norm_num [roundHalfEven, Int.fract]
    have hfmt : formatFixed1 7 = "7.0" := by
      simp only [formatFixed1, h70]
      decide
    have hband : getCriticalityLevel 7 = "HIGH" := by
      norm_num [getCriticalityLevel, CriticalityLevel.name]
    simp only [List.filterMap_cons, List.filterMap_nil, edgeSpec]
    have hget1 : dictGet [("source", PyVal.str "A"), ("target", PyVal.str "B")]
        "source" (.str "") = .str "A" := rfl
    have hget2 : dictGet [("source", PyVal.str "A"), ("target", PyVal.str "B")]
        "target" (.str "") = .str "B" := rfl
    simp only [hget1, hget2, hpc]
    rw [if_pos (by norm_num : (7 : ℚ) ≥ 7)]
    simp only [pyRender, hfmt, hband]
    rfl
  · have h1 := hmain [c7T (699/100)]
      [("components", .vlist []),
       ("relationships", .vlist [.vdict [("source", .str "A"), ("target", .str "B")]])]
      [.vdict [("source", .str "A"), ("target", .str "B")]] rfl (by decide)
      (by intro rv h
          rcases List.mem_singleton.mp h with rfl
          exact ⟨_, rfl, by decide, by decide⟩)
    rw [show c7Arch = PyVal.vdict
      [("components", .vlist []),
       ("relationships", .vlist [.vdict [("source", .str "A"), ("target", .str "B")]])]
      from rfl, h1]
    have hpc : pathCriticality [c7T (699/100)] (PyVal.str "A") (PyVal.str "B") =
        699/100 := by
      unfold pathCriticality
      norm_num [c7T, List.filter, pyEq, List.foldl]
    have hget1 : dictGet [("source", PyVal.str "A"), ("target", PyVal.str "B")]
        "source" (.str "") = .str "A" := rfl
    have hget2 : dictGet [("source", PyVal.str "A"), ("target", PyVal.str "B")]
        "target" (.str "") = .str "B" := rfl
    simp only [List.filterMap_cons, List.filterMap_nil, edgeSpec, hget1, hget2,
      hpc]
    rw [if_neg (by norm_num : ¬((699 : ℚ)/100 ≥ 7))]

/-- C7 (witness): the general part applied to the concrete one-edge
architecture. -/
theorem c7_critical_paths_witness :
    identifyCriticalPaths [c7T 7] (.vdict
      [("components", .vlist []),
       ("relationships", .vlist [.vdict [("source", .str "A"), ("target", .str "B")]])]) =
    [PyVal.vdict [("source", .str "A"), ("target", .str "B")]].filterMap
      (edgeSpec [c7T 7]) :=
  c7_critical_paths.1 [c7T 7]
    [("components", .vlist []),
     ("relationships", .vlist [.vdict [("source", .str "A"), ("target", .str "B")]])]
    [.vdict [("source", .str "A"), ("target", .str "B")]] rfl (by decide)
    (by intro rv h
        rcases List.mem_singleton.mp h with rfl
        exact ⟨_, rfl, by decide, by decide⟩)

end Strider
